import Mathlib

/-
  Shallow embedding of the DungeonToken contract
  (src/contracts/DungeonToken.sol): an ERC-1155 game ledger with
  starter-pack claims, dungeon runs, crafting and admin resets.

  Accounts and token ids are modelled as `Nat`; balances and flags are
  total functions from the contract's mappings; every external function
  becomes a `State → Except Err State` transition; EVM revert semantics
  is the `applyTx` wrapper that discards all intermediate state on error.
-/

namespace DungeonToken

/-- Token id constant `ENERGY = 1`. -/
def ENERGY : Nat := 1

/-- Token id constant `GOLD = 2`. -/
def GOLD : Nat := 2

/-- Token id constant `COMMON_SWORD = 1001`. -/
def COMMON_SWORD : Nat := 1001

/-- Token id constant `RARE_SWORD = 1002`. -/
def RARE_SWORD : Nat := 1002

/-- Token id constant `EPIC_SWORD = 1003`. -/
def EPIC_SWORD : Nat := 1003

/-- Token id constant `LEGENDARY_SWORD_1 = 2001`. -/
def LEGENDARY_SWORD_1 : Nat := 2001

/-- Token id constant `LEGENDARY_SWORD_2 = 2002`. -/
def LEGENDARY_SWORD_2 : Nat := 2002

/-- Token id constant `LEGENDARY_SWORD_3 = 2003`. -/
def LEGENDARY_SWORD_3 : Nat := 2003

/-- Token id constant `LEGENDARY_SWORD_4 = 2004`. -/
def LEGENDARY_SWORD_4 : Nat := 2004

/-- Token id constant `LEGENDARY_SWORD_5 = 2005`. -/
def LEGENDARY_SWORD_5 : Nat := 2005

/-- Game constant `DUNGEON_ENERGY_COST = 1`. -/
def DUNGEON_ENERGY_COST : Nat := 1

/-- Game constant `STARTER_PACK_ENERGY = 10`. -/
def STARTER_PACK_ENERGY : Nat := 10

/-- Game constant `STARTER_PACK_GOLD = 100`. -/
def STARTER_PACK_GOLD : Nat := 100

/-- Game constant `TIME_REWARD_COOLDOWN = 5 minutes` (300 seconds). -/
def TIME_REWARD_COOLDOWN : Nat := 300

/-- Error kinds surfaced by `require` failures in the contract. -/
inductive Err where
  | AlreadyClaimed
  | InsufficientBalance
  | CooldownActive
  | AlreadyCrafted
  | InvalidVariant
  | Unauthorized
  | LengthMismatch
deriving DecidableEq

/-- Contract storage: ERC-1155 balances, the claim/craft flags, the
time-reward timestamps, the player registry and the owner. -/
structure State where
  balances : Nat → Nat → Nat
  hasClaimedStarterPack : Nat → Bool
  hasCraftedLegendary : Nat → Nat → Bool
  lastTimeRewardClaim : Nat → Nat
  playerList : List Nat
  isPlayer : Nat → Bool
  owner : Nat

/-- Point update of the balance table. -/
def setBalance (s : State) (a t v : Nat) : State :=
  { s with balances := fun x y => if x = a ∧ y = t then v else s.balances x y }

/-- ERC-1155 `_mint`: increases a balance, never fails in the game's range. -/
def mint (s : State) (a t amt : Nat) : State :=
  setBalance s a t (s.balances a t + amt)

/-- ERC-1155 `_burn`: decreases a balance, reverting when the balance is
smaller than the burn amount. -/
def burn (s : State) (a t amt : Nat) : Except Err State :=
  if s.balances a t < amt then .error .InsufficientBalance
  else .ok (setBalance s a t (s.balances a t - amt))

/-- `_trackPlayer`: idempotently registers an account in the player list. -/
def trackPlayer (s : State) (p : Nat) : State :=
  if s.isPlayer p then s
  else { s with
    isPlayer := fun q => if q = p then true else s.isPlayer q
    playerList := s.playerList ++ [p] }

/-- Point update of the starter-pack flag. -/
def setStarterFlag (s : State) (a : Nat) (b : Bool) : State :=
  { s with hasClaimedStarterPack :=
      fun x => if x = a then b else s.hasClaimedStarterPack x }

/-- Point update of the legendary-craft flag. -/
def setLegendaryFlag (s : State) (a v : Nat) (b : Bool) : State :=
  { s with hasCraftedLegendary :=
      fun x y => if x = a ∧ y = v then b else s.hasCraftedLegendary x y }

/-- Point update of the last time-reward timestamp. -/
def setLastClaim (s : State) (a t : Nat) : State :=
  { s with lastTimeRewardClaim :=
      fun x => if x = a then t else s.lastTimeRewardClaim x }

/-- `_burnIfBalance`: burn the full balance of a token when it is positive. -/
def burnIfBalance (s : State) (p t : Nat) : State :=
  if 0 < s.balances p t then setBalance s p t (s.balances p t - s.balances p t)
  else s

/-- The ten token ids burned by `_resetPlayer`, in the source's order. -/
def knownTokenIds : List Nat :=
  [ENERGY, GOLD, COMMON_SWORD, RARE_SWORD, EPIC_SWORD,
   LEGENDARY_SWORD_1, LEGENDARY_SWORD_2, LEGENDARY_SWORD_3,
   LEGENDARY_SWORD_4, LEGENDARY_SWORD_5]

/-- The five legendary variant ids, in the source's order. -/
def legendaryIds : List Nat :=
  [LEGENDARY_SWORD_1, LEGENDARY_SWORD_2, LEGENDARY_SWORD_3,
   LEGENDARY_SWORD_4, LEGENDARY_SWORD_5]

/-- `_resetPlayer`: the source's sequence of `_burnIfBalance` calls over the
ten known token ids, then the starter flag, the timestamp and the five
legendary flags are cleared, in the source's order. -/
def resetPlayerState (s : State) (p : Nat) : State :=
  let s := knownTokenIds.foldl (fun s t => burnIfBalance s p t) s
  let s := setStarterFlag s p false
  let s := setLastClaim s p 0
  legendaryIds.foldl (fun s v => setLegendaryFlag s p v false) s

/-- `claimStarterPack()`: one-time starter grant. -/
def claimStarterPack (caller : Nat) (s0 : State) : Except Err State :=
  let s := trackPlayer s0 caller
  if s.hasClaimedStarterPack caller then .error .AlreadyClaimed
  else
    let s := setStarterFlag s caller true
    let s := mint s caller ENERGY STARTER_PACK_ENERGY
    let s := mint s caller GOLD STARTER_PACK_GOLD
    let s := mint s caller COMMON_SWORD 1
    .ok s

/-- `runDungeon()`: spend one energy, mint tiered loot and a gold reward
derived from the entropy value (`random` in the source). -/
def runDungeon (caller entropy : Nat) (s0 : State) : Except Err State :=
  let s := trackPlayer s0 caller
  if s.balances caller ENERGY < DUNGEON_ENERGY_COST then
    .error .InsufficientBalance
  else
    match burn s caller ENERGY DUNGEON_ENERGY_COST with
    | .error e => .error e
    | .ok s =>
      let random := entropy % 100
      let lootId :=
        if random < 70 then COMMON_SWORD
        else if random < 90 then RARE_SWORD
        else EPIC_SWORD
      let s := mint s caller lootId 1
      let goldReward := 20 + random % 31
      let s := mint s caller GOLD goldReward
      .ok s

/-- `claimTimeRewards()`: cooldown-gated gold and energy grant. -/
def claimTimeRewards (caller now entropy : Nat) (s0 : State) : Except Err State :=
  let s := trackPlayer s0 caller
  if now < s.lastTimeRewardClaim caller + TIME_REWARD_COOLDOWN then
    .error .CooldownActive
  else
    let s := setLastClaim s caller now
    let random := entropy % 100
    let goldReward := 5 + random % 6
    let energyReward := 1 + random % 2
    let s := mint s caller ENERGY energyReward
    let s := mint s caller GOLD goldReward
    .ok s

/-- The burn loop of `craftItem`, over the zipped id/amount pairs. -/
def burnList (caller : Nat) : List (Nat × Nat) → State → Except Err State
  | [], s => .ok s
  | (t, amt) :: rest, s =>
    match burn s caller t amt with
    | .error e => .error e
    | .ok s1 => burnList caller rest s1

/-- `craftItem(burnIds, burnAmounts, resultId)`: burn the listed amounts
in order and mint one unit of `resultId` (no further validation). -/
def craftItem (caller : Nat) (burnIds burnAmounts : List Nat) (resultId : Nat)
    (s0 : State) : Except Err State :=
  let s := trackPlayer s0 caller
  if burnIds.length = burnAmounts.length then
    match burnList caller (burnIds.zip burnAmounts) s with
    | .error e => .error e
    | .ok s1 => .ok (mint s1 caller resultId 1)
  else .error .LengthMismatch

/-- `craftRareSword()`: 3 Common Swords for 1 Rare Sword. -/
def craftRareSword (caller : Nat) (s0 : State) : Except Err State :=
  let s := trackPlayer s0 caller
  if s.balances caller COMMON_SWORD < 3 then .error .InsufficientBalance
  else
    match burn s caller COMMON_SWORD 3 with
    | .error e => .error e
    | .ok s => .ok (mint s caller RARE_SWORD 1)

/-- `craftEpicSword()`: 2 Rare Swords for 1 Epic Sword. -/
def craftEpicSword (caller : Nat) (s0 : State) : Except Err State :=
  let s := trackPlayer s0 caller
  if s.balances caller RARE_SWORD < 2 then .error .InsufficientBalance
  else
    match burn s caller RARE_SWORD 2 with
    | .error e => .error e
    | .ok s => .ok (mint s caller EPIC_SWORD 1)

/-- `craftLegendarySword(legendaryId)`: 5 Epic Swords and 1000 Gold for one
legendary variant, gated on the per-variant craft flag. -/
def craftLegendarySword (caller legendaryId : Nat) (s0 : State) :
    Except Err State :=
  let s := trackPlayer s0 caller
  if legendaryId < LEGENDARY_SWORD_1 ∨ LEGENDARY_SWORD_5 < legendaryId then
    .error .InvalidVariant
  else if s.hasCraftedLegendary caller legendaryId then .error .AlreadyCrafted
  else if s.balances caller EPIC_SWORD < 5 then .error .InsufficientBalance
  else if s.balances caller GOLD < 1000 then .error .InsufficientBalance
  else
    let s := setLegendaryFlag s caller legendaryId true
    match burn s caller EPIC_SWORD 5 with
    | .error e => .error e
    | .ok s =>
      match burn s caller GOLD 1000 with
      | .error e => .error e
      | .ok s => .ok (mint s caller legendaryId 1)

/-- `mintEnergy(to, amount)` (owner-only): tracks and mints to `to`. -/
def mintEnergy (caller recipient amount : Nat) (s0 : State) :
    Except Err State :=
  if caller ≠ s0.owner then .error .Unauthorized
  else
    let s := trackPlayer s0 recipient
    .ok (mint s recipient ENERGY amount)

/-- `mintGold(to, amount)` (owner-only): tracks and mints to `to`. -/
def mintGold (caller recipient amount : Nat) (s0 : State) :
    Except Err State :=
  if caller ≠ s0.owner then .error .Unauthorized
  else
    let s := trackPlayer s0 recipient
    .ok (mint s recipient GOLD amount)

/-- `resetPlayer(player)` (owner-only). -/
def resetPlayer (caller target : Nat) (s0 : State) : Except Err State :=
  if caller ≠ s0.owner then .error .Unauthorized
  else .ok (resetPlayerState s0 target)

/-- `resetPlayers(players)` (owner-only), applied in order. -/
def resetPlayers (caller : Nat) (targets : List Nat) (s0 : State) :
    Except Err State :=
  if caller ≠ s0.owner then .error .Unauthorized
  else .ok (targets.foldl resetPlayerState s0)

/-- `resetAllPlayers()` (owner-only): reset every registered player. -/
def resetAllPlayers (caller : Nat) (s0 : State) : Except Err State :=
  if caller ≠ s0.owner then .error .Unauthorized
  else .ok (s0.playerList.foldl resetPlayerState s0)

/-- The contract's constructor: mint the owner's initial supply and
register the deployer. -/
def initialState (deployer : Nat) : State :=
  let s : State :=
    { balances := fun _ _ => 0
      hasClaimedStarterPack := fun _ => false
      hasCraftedLegendary := fun _ _ => false
      lastTimeRewardClaim := fun _ => 0
      playerList := []
      isPlayer := fun _ => false
      owner := deployer }
  let s := mint s deployer ENERGY 1000
  let s := mint s deployer GOLD 10000
  trackPlayer s deployer

/-- The public mutating entry points, with caller, entropy and clock
supplied as explicit inputs. -/
inductive Op where
  | claimStarterPack (caller : Nat)
  | runDungeon (caller entropy : Nat)
  | claimTimeRewards (caller now entropy : Nat)
  | craftItem (caller : Nat) (burnIds burnAmounts : List Nat) (resultId : Nat)
  | craftRareSword (caller : Nat)
  | craftEpicSword (caller : Nat)
  | craftLegendarySword (caller legendaryId : Nat)
  | mintEnergy (caller recipient amount : Nat)
  | mintGold (caller recipient amount : Nat)
  | resetPlayer (caller target : Nat)
  | resetPlayers (caller : Nat) (targets : List Nat)
  | resetAllPlayers (caller : Nat)

/-- The transaction sender of an operation. -/
def Op.caller : Op → Nat
  | .claimStarterPack c => c
  | .runDungeon c _ => c
  | .claimTimeRewards c _ _ => c
  | .craftItem c _ _ _ => c
  | .craftRareSword c => c
  | .craftEpicSword c => c
  | .craftLegendarySword c _ => c
  | .mintEnergy c _ _ => c
  | .mintGold c _ _ => c
  | .resetPlayer c _ => c
  | .resetPlayers c _ => c
  | .resetAllPlayers c => c

/-- Dispatch an operation to its transition function. -/
def exec : Op → State → Except Err State
  | .claimStarterPack c, s => claimStarterPack c s
  | .runDungeon c e, s => runDungeon c e s
  | .claimTimeRewards c n e, s => claimTimeRewards c n e s
  | .craftItem c ids amts r, s => craftItem c ids amts r s
  | .craftRareSword c, s => craftRareSword c s
  | .craftEpicSword c, s => craftEpicSword c s
  | .craftLegendarySword c v, s => craftLegendarySword c v s
  | .mintEnergy c r a, s => mintEnergy c r a s
  | .mintGold c r a, s => mintGold c r a s
  | .resetPlayer c t, s => resetPlayer c t s
  | .resetPlayers c ts, s => resetPlayers c ts s
  | .resetAllPlayers c, s => resetAllPlayers c s

/-- EVM transaction semantics: a reverted call leaves the pre-state. -/
def applyTx (op : Op) (s : State) : State :=
  match exec op s with
  | .ok s1 => s1
  | .error _ => s

/-- Whether an operation succeeds (does not revert) on a state. -/
def execOk (op : Op) (s : State) : Bool :=
  match exec op s with
  | .ok _ => true
  | .error _ => false

/-- Run a sequence of transactions from a state. -/
def applyTrace (s : State) (ops : List Op) : State :=
  ops.foldl (fun s op => applyTx op s) s

/-- Total amount of token `t` consumed by a burn list. -/
def totalBurn : List (Nat × Nat) → Nat → Nat
  | [], _ => 0
  | q :: rest, t => (if q.1 = t then q.2 else 0) + totalBurn rest t

/-- Whether an operation is one of the three admin reset entry points. -/
def isAdminReset : Op → Bool
  | .resetPlayer _ _ => true
  | .resetPlayers _ _ => true
  | .resetAllPlayers _ => true
  | _ => false

/-- Whether an operation is one of the player-facing entry points (the
ones whose body begins with `_trackPlayer(msg.sender)`). -/
def playerFacing : Op → Bool
  | .claimStarterPack _ => true
  | .runDungeon _ _ => true
  | .claimTimeRewards _ _ _ => true
  | .craftItem _ _ _ _ => true
  | .craftRareSword _ => true
  | .craftEpicSword _ => true
  | .craftLegendarySword _ _ => true
  | _ => false

/-- Whether an operation avoids minting a legendary variant through the
unrestricted `craftItem` entry point. -/
def legendarySafe : Op → Bool
  | .craftItem _ _ _ r =>
    if LEGENDARY_SWORD_1 ≤ r ∧ r ≤ LEGENDARY_SWORD_5 then false else true
  | _ => true

/-- Every legendary balance is bounded by its craft flag. -/
def legendaryBound (s : State) : Prop :=
  ∀ a v, LEGENDARY_SWORD_1 ≤ v → v ≤ LEGENDARY_SWORD_5 →
    s.balances a v ≤ (if s.hasCraftedLegendary a v then 1 else 0)

theorem setBalance_balances (s : State) (a t v x y : Nat) :
    (setBalance s a t v).balances x y =
      if x = a ∧ y = t then v else s.balances x y := rfl

theorem mint_balances (s : State) (a t amt x y : Nat) :
    (mint s a t amt).balances x y =
      if x = a ∧ y = t then s.balances a t + amt else s.balances x y := rfl

theorem mint_starter (s : State) (a t amt : Nat) :
    (mint s a t amt).hasClaimedStarterPack = s.hasClaimedStarterPack := rfl

theorem mint_legendary (s : State) (a t amt : Nat) :
    (mint s a t amt).hasCraftedLegendary = s.hasCraftedLegendary := rfl

theorem mint_last (s : State) (a t amt : Nat) :
    (mint s a t amt).lastTimeRewardClaim = s.lastTimeRewardClaim := rfl

theorem mint_playerList (s : State) (a t amt : Nat) :
    (mint s a t amt).playerList = s.playerList := rfl

theorem mint_isPlayer (s : State) (a t amt : Nat) :
    (mint s a t amt).isPlayer = s.isPlayer := rfl

theorem mint_owner (s : State) (a t amt : Nat) :
    (mint s a t amt).owner = s.owner := rfl

theorem trackPlayer_balances (s : State) (p : Nat) :
    (trackPlayer s p).balances = s.balances := by
  unfold trackPlayer; split <;> rfl

theorem trackPlayer_starter (s : State) (p : Nat) :
    (trackPlayer s p).hasClaimedStarterPack = s.hasClaimedStarterPack := by
  unfold trackPlayer; split <;> rfl

theorem trackPlayer_legendary (s : State) (p : Nat) :
    (trackPlayer s p).hasCraftedLegendary = s.hasCraftedLegendary := by
  unfold trackPlayer; split <;> rfl

theorem trackPlayer_last (s : State) (p : Nat) :
    (trackPlayer s p).lastTimeRewardClaim = s.lastTimeRewardClaim := by
  unfold trackPlayer; split <;> rfl

theorem trackPlayer_owner (s : State) (p : Nat) :
    (trackPlayer s p).owner = s.owner := by
  unfold trackPlayer; split <;> rfl

theorem trackPlayer_isPlayer (s : State) (p x : Nat) :
    (trackPlayer s p).isPlayer x = if x = p then true else s.isPlayer x := by
  unfold trackPlayer
  split
  case isTrue h => split <;> simp_all
  case isFalse h => rfl

theorem setStarterFlag_flag (s : State) (a : Nat) (b : Bool) (x : Nat) :
    (setStarterFlag s a b).hasClaimedStarterPack x =
      if x = a then b else s.hasClaimedStarterPack x := rfl

theorem setStarterFlag_balances (s : State) (a : Nat) (b : Bool) :
    (setStarterFlag s a b).balances = s.balances := rfl

theorem setLegendaryFlag_flag (s : State) (a v : Nat) (b : Bool) (x y : Nat) :
    (setLegendaryFlag s a v b).hasCraftedLegendary x y =
      if x = a ∧ y = v then b else s.hasCraftedLegendary x y := rfl

theorem setLastClaim_last (s : State) (a t x : Nat) :
    (setLastClaim s a t).lastTimeRewardClaim x =
      if x = a then t else s.lastTimeRewardClaim x := rfl

theorem burn_ok (s : State) (a t amt : Nat) (h : amt ≤ s.balances a t) :
    burn s a t amt = .ok (setBalance s a t (s.balances a t - amt)) := by
  unfold burn; split
  case isTrue h2 => omega
  case isFalse => rfl

theorem burn_err (s : State) (a t amt : Nat) (h : s.balances a t < amt) :
    burn s a t amt = .error .InsufficientBalance := by
  unfold burn; split
  case isTrue => rfl
  case isFalse h2 => omega

theorem burnIfBalance_balances (s : State) (p t x y : Nat) :
    (burnIfBalance s p t).balances x y =
      if x = p ∧ y = t then 0 else s.balances x y := by
  unfold burnIfBalance
  split
  case isTrue h =>
    rw [setBalance_balances]
    split
    case isTrue h2 => omega
    case isFalse h2 => rfl
  case isFalse h =>
    split
    case isTrue h2 =>
      obtain ⟨rfl, rfl⟩ := h2
      omega
    case isFalse => rfl

theorem burnIfBalance_starter (s : State) (p t : Nat) :
    (burnIfBalance s p t).hasClaimedStarterPack = s.hasClaimedStarterPack := by
  unfold burnIfBalance; split <;> rfl

theorem burnIfBalance_legendary (s : State) (p t : Nat) :
    (burnIfBalance s p t).hasCraftedLegendary = s.hasCraftedLegendary := by
  unfold burnIfBalance; split <;> rfl

theorem burnIfBalance_last (s : State) (p t : Nat) :
    (burnIfBalance s p t).lastTimeRewardClaim = s.lastTimeRewardClaim := by
  unfold burnIfBalance; split <;> rfl

theorem burnIfBalance_playerList (s : State) (p t : Nat) :
    (burnIfBalance s p t).playerList = s.playerList := by
  unfold burnIfBalance; split <;> rfl

theorem burnIfBalance_isPlayer (s : State) (p t : Nat) :
    (burnIfBalance s p t).isPlayer = s.isPlayer := by
  unfold burnIfBalance; split <;> rfl

theorem burnIfBalance_owner (s : State) (p t : Nat) :
    (burnIfBalance s p t).owner = s.owner := by
  unfold burnIfBalance; split <;> rfl



theorem setStarterFlag_legendary (s : State) (a : Nat) (b : Bool) :
    (setStarterFlag s a b).hasCraftedLegendary = s.hasCraftedLegendary := rfl

theorem setStarterFlag_last (s : State) (a : Nat) (b : Bool) :
    (setStarterFlag s a b).lastTimeRewardClaim = s.lastTimeRewardClaim := rfl

theorem setStarterFlag_playerList (s : State) (a : Nat) (b : Bool) :
    (setStarterFlag s a b).playerList = s.playerList := rfl

theorem setStarterFlag_isPlayer (s : State) (a : Nat) (b : Bool) :
    (setStarterFlag s a b).isPlayer = s.isPlayer := rfl

theorem setStarterFlag_owner (s : State) (a : Nat) (b : Bool) :
    (setStarterFlag s a b).owner = s.owner := rfl

theorem setLegendaryFlag_balances (s : State) (a v : Nat) (b : Bool) :
    (setLegendaryFlag s a v b).balances = s.balances := rfl

theorem setLegendaryFlag_starter (s : State) (a v : Nat) (b : Bool) :
    (setLegendaryFlag s a v b).hasClaimedStarterPack = s.hasClaimedStarterPack := rfl

theorem setLegendaryFlag_last (s : State) (a v : Nat) (b : Bool) :
    (setLegendaryFlag s a v b).lastTimeRewardClaim = s.lastTimeRewardClaim := rfl

theorem setLegendaryFlag_playerList (s : State) (a v : Nat) (b : Bool) :
    (setLegendaryFlag s a v b).playerList = s.playerList := rfl

theorem setLegendaryFlag_isPlayer (s : State) (a v : Nat) (b : Bool) :
    (setLegendaryFlag s a v b).isPlayer = s.isPlayer := rfl

theorem setLegendaryFlag_owner (s : State) (a v : Nat) (b : Bool) :
    (setLegendaryFlag s a v b).owner = s.owner := rfl

theorem setLastClaim_balances (s : State) (a t : Nat) :
    (setLastClaim s a t).balances = s.balances := rfl

theorem setLastClaim_starter (s : State) (a t : Nat) :
    (setLastClaim s a t).hasClaimedStarterPack = s.hasClaimedStarterPack := rfl

theorem setLastClaim_legendary (s : State) (a t : Nat) :
    (setLastClaim s a t).hasCraftedLegendary = s.hasCraftedLegendary := rfl

theorem setLastClaim_playerList (s : State) (a t : Nat) :
    (setLastClaim s a t).playerList = s.playerList := rfl

theorem setLastClaim_isPlayer (s : State) (a t : Nat) :
    (setLastClaim s a t).isPlayer = s.isPlayer := rfl

theorem setLastClaim_owner (s : State) (a t : Nat) :
    (setLastClaim s a t).owner = s.owner := rfl

theorem setBalance_starter (s : State) (a t v : Nat) :
    (setBalance s a t v).hasClaimedStarterPack = s.hasClaimedStarterPack := rfl

theorem setBalance_legendary (s : State) (a t v : Nat) :
    (setBalance s a t v).hasCraftedLegendary = s.hasCraftedLegendary := rfl

theorem setBalance_last (s : State) (a t v : Nat) :
    (setBalance s a t v).lastTimeRewardClaim = s.lastTimeRewardClaim := rfl

theorem setBalance_playerList (s : State) (a t v : Nat) :
    (setBalance s a t v).playerList = s.playerList := rfl

theorem setBalance_isPlayer (s : State) (a t v : Nat) :
    (setBalance s a t v).isPlayer = s.isPlayer := rfl

theorem setBalance_owner (s : State) (a t v : Nat) :
    (setBalance s a t v).owner = s.owner := rfl


theorem foldlBurn_balances (p : Nat) (ids : List Nat) (s : State) (x y : Nat) :
    (ids.foldl (fun s t => burnIfBalance s p t) s).balances x y =
      if x = p ∧ y ∈ ids then 0 else s.balances x y := by
  induction ids generalizing s with
  | nil => simp
  | cons t rest ih =>
    rw [List.foldl_cons, ih, burnIfBalance_balances]
    simp only [List.mem_cons]
    split_ifs <;> tauto

theorem foldlBurn_starter (p : Nat) (ids : List Nat) (s : State) :
    (ids.foldl (fun s t => burnIfBalance s p t) s).hasClaimedStarterPack =
      s.hasClaimedStarterPack := by
  induction ids generalizing s with
  | nil => rfl
  | cons t rest ih => rw [List.foldl_cons, ih, burnIfBalance_starter]

theorem foldlBurn_legendary (p : Nat) (ids : List Nat) (s : State) :
    (ids.foldl (fun s t => burnIfBalance s p t) s).hasCraftedLegendary =
      s.hasCraftedLegendary := by
  induction ids generalizing s with
  | nil => rfl
  | cons t rest ih => rw [List.foldl_cons, ih, burnIfBalance_legendary]

theorem foldlBurn_last (p : Nat) (ids : List Nat) (s : State) :
    (ids.foldl (fun s t => burnIfBalance s p t) s).lastTimeRewardClaim =
      s.lastTimeRewardClaim := by
  induction ids generalizing s with
  | nil => rfl
  | cons t rest ih => rw [List.foldl_cons, ih, burnIfBalance_last]

theorem foldlBurn_playerList (p : Nat) (ids : List Nat) (s : State) :
    (ids.foldl (fun s t => burnIfBalance s p t) s).playerList = s.playerList := by
  induction ids generalizing s with
  | nil => rfl
  | cons t rest ih => rw [List.foldl_cons, ih, burnIfBalance_playerList]

theorem foldlBurn_isPlayer (p : Nat) (ids : List Nat) (s : State) :
    (ids.foldl (fun s t => burnIfBalance s p t) s).isPlayer = s.isPlayer := by
  induction ids generalizing s with
  | nil => rfl
  | cons t rest ih => rw [List.foldl_cons, ih, burnIfBalance_isPlayer]

theorem foldlBurn_owner (p : Nat) (ids : List Nat) (s : State) :
    (ids.foldl (fun s t => burnIfBalance s p t) s).owner = s.owner := by
  induction ids generalizing s with
  | nil => rfl
  | cons t rest ih => rw [List.foldl_cons, ih, burnIfBalance_owner]

theorem foldlLegFlag_legendary (p : Nat) (ids : List Nat) (s : State) (x y : Nat) :
    (ids.foldl (fun s v => setLegendaryFlag s p v false) s).hasCraftedLegendary x y =
      if x = p ∧ y ∈ ids then false else s.hasCraftedLegendary x y := by
  induction ids generalizing s with
  | nil => simp
  | cons v rest ih =>
    rw [List.foldl_cons, ih, setLegendaryFlag_flag]
    simp only [List.mem_cons]
    split_ifs <;> tauto

theorem foldlLegFlag_balances (p : Nat) (ids : List Nat) (s : State) :
    (ids.foldl (fun s v => setLegendaryFlag s p v false) s).balances = s.balances := by
  induction ids generalizing s with
  | nil => rfl
  | cons v rest ih => rw [List.foldl_cons, ih, setLegendaryFlag_balances]

theorem foldlLegFlag_starter (p : Nat) (ids : List Nat) (s : State) :
    (ids.foldl (fun s v => setLegendaryFlag s p v false) s).hasClaimedStarterPack =
      s.hasClaimedStarterPack := by
  induction ids generalizing s with
  | nil => rfl
  | cons v rest ih => rw [List.foldl_cons, ih, setLegendaryFlag_starter]

theorem foldlLegFlag_last (p : Nat) (ids : List Nat) (s : State) :
    (ids.foldl (fun s v => setLegendaryFlag s p v false) s).lastTimeRewardClaim =
      s.lastTimeRewardClaim := by
  induction ids generalizing s with
  | nil => rfl
  | cons v rest ih => rw [List.foldl_cons, ih, setLegendaryFlag_last]

theorem foldlLegFlag_playerList (p : Nat) (ids : List Nat) (s : State) :
    (ids.foldl (fun s v => setLegendaryFlag s p v false) s).playerList =
      s.playerList := by
  induction ids generalizing s with
  | nil => rfl
  | cons v rest ih => rw [List.foldl_cons, ih, setLegendaryFlag_playerList]

theorem foldlLegFlag_isPlayer (p : Nat) (ids : List Nat) (s : State) :
    (ids.foldl (fun s v => setLegendaryFlag s p v false) s).isPlayer =
      s.isPlayer := by
  induction ids generalizing s with
  | nil => rfl
  | cons v rest ih => rw [List.foldl_cons, ih, setLegendaryFlag_isPlayer]

theorem foldlLegFlag_owner (p : Nat) (ids : List Nat) (s : State) :
    (ids.foldl (fun s v => setLegendaryFlag s p v false) s).owner = s.owner := by
  induction ids generalizing s with
  | nil => rfl
  | cons v rest ih => rw [List.foldl_cons, ih, setLegendaryFlag_owner]

theorem resetPlayerState_balances (s : State) (p x y : Nat) :
    (resetPlayerState s p).balances x y =
      if x = p ∧ y ∈ knownTokenIds then 0 else s.balances x y := by
  unfold resetPlayerState
  rw [foldlLegFlag_balances, setLastClaim_balances, setStarterFlag_balances,
    foldlBurn_balances]

theorem resetPlayerState_starter (s : State) (p x : Nat) :
    (resetPlayerState s p).hasClaimedStarterPack x =
      if x = p then false else s.hasClaimedStarterPack x := by
  unfold resetPlayerState
  rw [foldlLegFlag_starter, setLastClaim_starter, setStarterFlag_flag,
    foldlBurn_starter]

theorem resetPlayerState_legendary (s : State) (p x y : Nat) :
    (resetPlayerState s p).hasCraftedLegendary x y =
      if x = p ∧ y ∈ legendaryIds then false else s.hasCraftedLegendary x y := by
  unfold resetPlayerState
  rw [foldlLegFlag_legendary, setLastClaim_legendary, setStarterFlag_legendary,
    foldlBurn_legendary]

theorem resetPlayerState_last (s : State) (p x : Nat) :
    (resetPlayerState s p).lastTimeRewardClaim x =
      if x = p then 0 else s.lastTimeRewardClaim x := by
  unfold resetPlayerState
  rw [foldlLegFlag_last, setLastClaim_last, setStarterFlag_last, foldlBurn_last]

theorem resetPlayerState_playerList (s : State) (p : Nat) :
    (resetPlayerState s p).playerList = s.playerList := by
  unfold resetPlayerState
  rw [foldlLegFlag_playerList, setLastClaim_playerList,
    setStarterFlag_playerList, foldlBurn_playerList]

theorem resetPlayerState_isPlayer (s : State) (p : Nat) :
    (resetPlayerState s p).isPlayer = s.isPlayer := by
  unfold resetPlayerState
  rw [foldlLegFlag_isPlayer, setLastClaim_isPlayer,
    setStarterFlag_isPlayer, foldlBurn_isPlayer]

theorem resetPlayerState_owner (s : State) (p : Nat) :
    (resetPlayerState s p).owner = s.owner := by
  unfold resetPlayerState
  rw [foldlLegFlag_owner, setLastClaim_owner, setStarterFlag_owner,
    foldlBurn_owner]


theorem applyTx_of_error (op : Op) (s : State) (e : Err)
    (h : exec op s = .error e) : applyTx op s = s := by
  unfold applyTx; rw [h]

theorem applyTx_of_ok (op : Op) (s s1 : State)
    (h : exec op s = .ok s1) : applyTx op s = s1 := by
  unfold applyTx; rw [h]

theorem execOk_of_ok (op : Op) (s s1 : State)
    (h : exec op s = .ok s1) : execOk op s = true := by
  unfold execOk; rw [h]

theorem claimStarterPack_ok (a : Nat) (s : State)
    (h : s.hasClaimedStarterPack a = false) :
    exec (Op.claimStarterPack a) s =
      .ok (mint (mint (mint (setStarterFlag (trackPlayer s a) a true)
        a ENERGY STARTER_PACK_ENERGY) a GOLD STARTER_PACK_GOLD)
        a COMMON_SWORD 1) := by
  show claimStarterPack a s = _
  simp only [claimStarterPack, trackPlayer_starter, h, Bool.false_eq_true,
    if_false]

theorem claimStarterPack_err (a : Nat) (s : State)
    (h : s.hasClaimedStarterPack a = true) :
    exec (Op.claimStarterPack a) s = .error .AlreadyClaimed := by
  show claimStarterPack a s = _
  simp only [claimStarterPack, trackPlayer_starter, h, if_true]

/-- C10: in the deployment state, before any public operation, the owner
already holds 1000 Energy and 10000 Gold and is the single registered
player. -/
theorem constructor_initial_supply (d : Nat) :
    (initialState d).balances d ENERGY = 1000 ∧
    (initialState d).balances d GOLD = 10000 ∧
    (initialState d).isPlayer d = true ∧
    (initialState d).playerList = [d] ∧
    (initialState d).playerList.length = 1 := by
  refine ⟨?_, ?_, ?_, ?_, ?_⟩ <;>
    simp [initialState, mint_balances, trackPlayer_balances,
      trackPlayer_isPlayer, mint_isPlayer, trackPlayer, mint, setBalance,
      ENERGY, GOLD]

/-- C2: a failed operation leaves the persisted state exactly as it was:
every balance, every flag and every timestamp are unchanged. -/
theorem failed_op_preserves_state (op : Op) (s : State) (e : Err)
    (h : exec op s = .error e) :
    applyTx op s = s ∧
    (applyTx op s).balances = s.balances ∧
    (applyTx op s).hasClaimedStarterPack = s.hasClaimedStarterPack ∧
    (applyTx op s).hasCraftedLegendary = s.hasCraftedLegendary ∧
    (applyTx op s).lastTimeRewardClaim = s.lastTimeRewardClaim := by
  have hs := applyTx_of_error op s e h
  exact ⟨hs, by rw [hs], by rw [hs], by rw [hs], by rw [hs]⟩

theorem failed_op_preserves_state_witness :
    exec (Op.claimStarterPack 1) (applyTx (Op.claimStarterPack 1)
        (initialState 0)) = .error .AlreadyClaimed ∧
    applyTx (Op.claimStarterPack 1) (applyTx (Op.claimStarterPack 1)
        (initialState 0)) =
      applyTx (Op.claimStarterPack 1) (initialState 0) :=
  ⟨rfl, (failed_op_preserves_state (Op.claimStarterPack 1)
    (applyTx (Op.claimStarterPack 1) (initialState 0))
    .AlreadyClaimed rfl).1⟩

/-- C3: a fresh account's starter-pack claim succeeds and grants exactly
10 Energy, 100 Gold and 1 Common Sword, setting the flag; the second call
fails with AlreadyClaimed and leaves the state untouched. -/
theorem claimStarterPack_spec (a : Nat) (s : State)
    (hflag : s.hasClaimedStarterPack a = false)
    (he : s.balances a ENERGY = 0)
    (hg : s.balances a GOLD = 0)
    (hc : s.balances a COMMON_SWORD = 0) :
    execOk (Op.claimStarterPack a) s = true ∧
    (applyTx (Op.claimStarterPack a) s).balances a ENERGY = 10 ∧
    (applyTx (Op.claimStarterPack a) s).balances a GOLD = 100 ∧
    (applyTx (Op.claimStarterPack a) s).balances a COMMON_SWORD = 1 ∧
    (applyTx (Op.claimStarterPack a) s).hasClaimedStarterPack a = true ∧
    exec (Op.claimStarterPack a) (applyTx (Op.claimStarterPack a) s) =
      .error .AlreadyClaimed ∧
    applyTx (Op.claimStarterPack a) (applyTx (Op.claimStarterPack a) s) =
      applyTx (Op.claimStarterPack a) s := by
  have he1 : s.balances a 1 = 0 := he
  have hg1 : s.balances a 2 = 0 := hg
  have hc1 : s.balances a 1001 = 0 := hc
  have hex := claimStarterPack_ok a s hflag
  have happ := applyTx_of_ok _ _ _ hex
  have hflag2 : (applyTx (Op.claimStarterPack a) s).hasClaimedStarterPack a
      = true := by
    rw [happ, mint_starter, mint_starter, mint_starter, setStarterFlag_flag]
    simp
  have herr := claimStarterPack_err a _ hflag2
  refine ⟨execOk_of_ok _ _ _ hex, ?_, ?_, ?_, hflag2, herr,
    applyTx_of_error _ _ _ herr⟩ <;>
  · rw [happ]
    simp only [mint_balances, trackPlayer_balances, setStarterFlag_balances,
      ENERGY, GOLD, COMMON_SWORD, STARTER_PACK_ENERGY, STARTER_PACK_GOLD]
    simp [he1, hg1, hc1]

theorem claimStarterPack_spec_witness :
    (initialState 0).hasClaimedStarterPack 1 = false ∧
    (applyTx (Op.claimStarterPack 1) (initialState 0)).balances 1 GOLD
      = 100 :=
  ⟨by decide, (claimStarterPack_spec 1 (initialState 0) (by decide)
    (by decide) (by decide) (by decide)).2.2.1⟩

theorem runDungeon_ok (a entropy : Nat) (s : State)
    (h : 1 ≤ s.balances a ENERGY) :
    exec (Op.runDungeon a entropy) s =
      .ok (mint (mint (setBalance (trackPlayer s a) a ENERGY
          ((trackPlayer s a).balances a ENERGY - DUNGEON_ENERGY_COST))
        a (if entropy % 100 < 70 then COMMON_SWORD
           else if entropy % 100 < 90 then RARE_SWORD else EPIC_SWORD) 1)
        a GOLD (20 + entropy % 100 % 31)) := by
  have hle : DUNGEON_ENERGY_COST ≤ (trackPlayer s a).balances a ENERGY := by
    rw [trackPlayer_balances]; exact h
  show runDungeon a entropy s = _
  simp only [runDungeon]
  rw [burn_ok _ _ _ _ hle, if_neg (by omega)]

theorem runDungeon_err (a entropy : Nat) (s : State)
    (h : s.balances a ENERGY = 0) :
    exec (Op.runDungeon a entropy) s = .error .InsufficientBalance := by
  show runDungeon a entropy s = _
  simp only [runDungeon]
  rw [if_pos]
  rw [trackPlayer_balances, h]
  decide

/-- C4: with at least one Energy, a dungeon run burns exactly one Energy,
mints the tier determined by r = entropy mod 100 (Common below 70, Rare in
[70,90), Epic from 90) plus 20 + (r mod 31) Gold, an amount in [20,50];
the result depends on the entropy only through r; with no Energy the run
fails and changes nothing. -/
theorem runDungeon_spec (a entropy : Nat) (s : State) :
    (1 ≤ s.balances a ENERGY →
      execOk (Op.runDungeon a entropy) s = true ∧
      (applyTx (Op.runDungeon a entropy) s).balances a ENERGY =
        s.balances a ENERGY - 1 ∧
      (applyTx (Op.runDungeon a entropy) s).balances a GOLD =
        s.balances a GOLD + (20 + entropy % 100 % 31) ∧
      20 ≤ 20 + entropy % 100 % 31 ∧ 20 + entropy % 100 % 31 ≤ 50 ∧
      (entropy % 100 < 70 →
        (applyTx (Op.runDungeon a entropy) s).balances a COMMON_SWORD =
          s.balances a COMMON_SWORD + 1 ∧
        (applyTx (Op.runDungeon a entropy) s).balances a RARE_SWORD =
          s.balances a RARE_SWORD ∧
        (applyTx (Op.runDungeon a entropy) s).balances a EPIC_SWORD =
          s.balances a EPIC_SWORD) ∧
      (70 ≤ entropy % 100 → entropy % 100 < 90 →
        (applyTx (Op.runDungeon a entropy) s).balances a RARE_SWORD =
          s.balances a RARE_SWORD + 1 ∧
        (applyTx (Op.runDungeon a entropy) s).balances a COMMON_SWORD =
          s.balances a COMMON_SWORD ∧
        (applyTx (Op.runDungeon a entropy) s).balances a EPIC_SWORD =
          s.balances a EPIC_SWORD) ∧
      (90 ≤ entropy % 100 →
        (applyTx (Op.runDungeon a entropy) s).balances a EPIC_SWORD =
          s.balances a EPIC_SWORD + 1 ∧
        (applyTx (Op.runDungeon a entropy) s).balances a COMMON_SWORD =
          s.balances a COMMON_SWORD ∧
        (applyTx (Op.runDungeon a entropy) s).balances a RARE_SWORD =
          s.balances a RARE_SWORD)) ∧
    (s.balances a ENERGY = 0 →
      exec (Op.runDungeon a entropy) s = .error .InsufficientBalance ∧
      applyTx (Op.runDungeon a entropy) s = s) ∧
    (∀ e2, e2 % 100 = entropy % 100 →
      exec (Op.runDungeon a e2) s = exec (Op.runDungeon a entropy) s) := by
  refine ⟨?_, ?_, ?_⟩
  · intro h
    have hex := runDungeon_ok a entropy s h
    rcases Nat.lt_or_ge (entropy % 100) 70 with h70 | h70
    · rw [if_pos h70] at hex
      have happ := applyTx_of_ok _ _ _ hex
      refine ⟨execOk_of_ok _ _ _ hex, ?_, ?_, by omega, by omega,
        ?_, ?_, ?_⟩
      · rw [happ]
        simp only [mint_balances, setBalance_balances, trackPlayer_balances,
          ENERGY, GOLD, COMMON_SWORD, DUNGEON_ENERGY_COST]
        simp
      · rw [happ]
        simp only [mint_balances, setBalance_balances, trackPlayer_balances,
          ENERGY, GOLD, COMMON_SWORD, DUNGEON_ENERGY_COST]
        simp
      · intro h1
        refine ⟨?_, ?_, ?_⟩ <;>
        · rw [happ]
          simp only [mint_balances, setBalance_balances, trackPlayer_balances,
            ENERGY, GOLD, COMMON_SWORD, RARE_SWORD, EPIC_SWORD,
            DUNGEON_ENERGY_COST]
          simp
      · intro h1 h2
        omega
      · intro h1
        omega
    · rcases Nat.lt_or_ge (entropy % 100) 90 with h90 | h90
      · rw [if_neg (by omega), if_pos h90] at hex
        have happ := applyTx_of_ok _ _ _ hex
        refine ⟨execOk_of_ok _ _ _ hex, ?_, ?_, by omega, by omega,
          ?_, ?_, ?_⟩
        · rw [happ]
          simp only [mint_balances, setBalance_balances, trackPlayer_balances,
            ENERGY, GOLD, RARE_SWORD, DUNGEON_ENERGY_COST]
          simp
        · rw [happ]
          simp only [mint_balances, setBalance_balances, trackPlayer_balances,
            ENERGY, GOLD, RARE_SWORD, DUNGEON_ENERGY_COST]
          simp
        · intro h1
          omega
        · intro h1 h2
          refine ⟨?_, ?_, ?_⟩ <;>
          · rw [happ]
            simp only [mint_balances, setBalance_balances,
              trackPlayer_balances, ENERGY, GOLD, COMMON_SWORD, RARE_SWORD,
              EPIC_SWORD, DUNGEON_ENERGY_COST]
            simp
        · intro h1
          omega
      · rw [if_neg (by omega), if_neg (by omega)] at hex
        have happ := applyTx_of_ok _ _ _ hex
        refine ⟨execOk_of_ok _ _ _ hex, ?_, ?_, by omega, by omega,
          ?_, ?_, ?_⟩
        · rw [happ]
          simp only [mint_balances, setBalance_balances, trackPlayer_balances,
            ENERGY, GOLD, EPIC_SWORD, DUNGEON_ENERGY_COST]
          simp
        · rw [happ]
          simp only [mint_balances, setBalance_balances, trackPlayer_balances,
            ENERGY, GOLD, EPIC_SWORD, DUNGEON_ENERGY_COST]
          simp
        · intro h1
          omega
        · intro h1 h2
          omega
        · intro h1
          refine ⟨?_, ?_, ?_⟩ <;>
          · rw [happ]
            simp only [mint_balances, setBalance_balances,
              trackPlayer_balances, ENERGY, GOLD, COMMON_SWORD, RARE_SWORD,
              EPIC_SWORD, DUNGEON_ENERGY_COST]
            simp
  · intro h0
    have herr := runDungeon_err a entropy s h0
    exact ⟨herr, applyTx_of_error _ _ _ herr⟩
  · intro e2 he
    show runDungeon a e2 s = runDungeon a entropy s
    simp only [runDungeon, he]

theorem runDungeon_spec_witness :
    1 ≤ (applyTx (Op.mintEnergy 0 1 10) (initialState 0)).balances 1
      ENERGY ∧
    (applyTx (Op.runDungeon 1 65) (applyTx (Op.mintEnergy 0 1 10)
        (initialState 0))).balances 1 ENERGY =
      (applyTx (Op.mintEnergy 0 1 10) (initialState 0)).balances 1
        ENERGY - 1 :=
  ⟨by decide, ((runDungeon_spec 1 65
    (applyTx (Op.mintEnergy 0 1 10) (initialState 0))).1 (by decide)).2.1⟩

theorem claimTimeRewards_ok (a now entropy : Nat) (s : State)
    (h : s.lastTimeRewardClaim a + TIME_REWARD_COOLDOWN ≤ now) :
    exec (Op.claimTimeRewards a now entropy) s =
      .ok (mint (mint (setLastClaim (trackPlayer s a) a now)
        a ENERGY (1 + entropy % 100 % 2)) a GOLD (5 + entropy % 100 % 6)) := by
  show claimTimeRewards a now entropy s = _
  simp only [claimTimeRewards]
  rw [trackPlayer_last, if_neg (by omega)]

theorem claimTimeRewards_err (a now entropy : Nat) (s : State)
    (h : now < s.lastTimeRewardClaim a + TIME_REWARD_COOLDOWN) :
    exec (Op.claimTimeRewards a now entropy) s = .error .CooldownActive := by
  show claimTimeRewards a now entropy s = _
  simp only [claimTimeRewards]
  rw [trackPlayer_last, if_pos h]

/-- C5: the time reward fails with CooldownActive exactly when `now` is
before the last claim plus the cooldown; on success the timestamp becomes
`now` and the account is minted 5 + (r mod 6) Gold (in [5,10]) and
1 + (r mod 2) Energy (in [1,2]). -/
theorem claimTimeRewards_spec (a now entropy : Nat) (s : State) :
    (exec (Op.claimTimeRewards a now entropy) s = .error .CooldownActive ↔
      now < s.lastTimeRewardClaim a + TIME_REWARD_COOLDOWN) ∧
    (now < s.lastTimeRewardClaim a + TIME_REWARD_COOLDOWN →
      applyTx (Op.claimTimeRewards a now entropy) s = s) ∧
    (s.lastTimeRewardClaim a + TIME_REWARD_COOLDOWN ≤ now →
      execOk (Op.claimTimeRewards a now entropy) s = true ∧
      (applyTx (Op.claimTimeRewards a now entropy) s).lastTimeRewardClaim a
        = now ∧
      (applyTx (Op.claimTimeRewards a now entropy) s).balances a GOLD =
        s.balances a GOLD + (5 + entropy % 100 % 6) ∧
      (applyTx (Op.claimTimeRewards a now entropy) s).balances a ENERGY =
        s.balances a ENERGY + (1 + entropy % 100 % 2) ∧
      5 ≤ 5 + entropy % 100 % 6 ∧ 5 + entropy % 100 % 6 ≤ 10 ∧
      1 ≤ 1 + entropy % 100 % 2 ∧ 1 + entropy % 100 % 2 ≤ 2) := by
  refine ⟨⟨?_, claimTimeRewards_err a now entropy s⟩, ?_, ?_⟩
  · intro herr
    by_contra hge
    rw [claimTimeRewards_ok a now entropy s (by omega)] at herr
    exact Except.noConfusion herr
  · intro hlt
    exact applyTx_of_error _ _ _ (claimTimeRewards_err a now entropy s hlt)
  · intro hle
    have hex := claimTimeRewards_ok a now entropy s hle
    have happ := applyTx_of_ok _ _ _ hex
    refine ⟨execOk_of_ok _ _ _ hex, ?_, ?_, ?_,
      by omega, Nat.add_le_add_left (Nat.le_of_lt_succ (Nat.mod_lt _ (by omega))) 5,
      by omega, Nat.add_le_add_left (Nat.le_of_lt_succ (Nat.mod_lt _ (by omega))) 1⟩
    · rw [happ, mint_last, mint_last, setLastClaim_last]
      simp
    · rw [happ]
      simp only [mint_balances, setLastClaim_balances, trackPlayer_balances,
        ENERGY, GOLD]
      simp
    · rw [happ]
      simp only [mint_balances, setLastClaim_balances, trackPlayer_balances,
        ENERGY, GOLD]
      simp

theorem claimTimeRewards_spec_witness :
    ((initialState 0).lastTimeRewardClaim 1 + TIME_REWARD_COOLDOWN ≤ 300 ∧
      State.lastTimeRewardClaim
        (applyTx (Op.claimTimeRewards 1 300 7) (initialState 0)) 1 = 300) ∧
    (exec (Op.claimTimeRewards 1 299 7) (initialState 0) =
      .error .CooldownActive) :=
  ⟨⟨by decide, ((claimTimeRewards_spec 1 300 7 (initialState 0)).2.2
      (by decide)).2.1⟩,
    (claimTimeRewards_spec 1 299 7 (initialState 0)).1.mpr (by decide)⟩

theorem claimStarterPack_inv (c : Nat) (s s1 : State)
    (h : exec (Op.claimStarterPack c) s = .ok s1) :
    s1 = mint (mint (mint (setStarterFlag (trackPlayer s c) c true)
      c ENERGY STARTER_PACK_ENERGY) c GOLD STARTER_PACK_GOLD)
      c COMMON_SWORD 1 := by
  by_cases hf : s.hasClaimedStarterPack c = true
  · rw [claimStarterPack_err c s hf] at h
    exact Except.noConfusion h
  · rw [claimStarterPack_ok c s (by simpa using hf)] at h
    exact (Except.ok.inj h).symm

theorem runDungeon_inv (a entropy : Nat) (s s1 : State)
    (h : exec (Op.runDungeon a entropy) s = .ok s1) :
    1 ≤ s.balances a ENERGY ∧
    s1 = mint (mint (setBalance (trackPlayer s a) a ENERGY
        ((trackPlayer s a).balances a ENERGY - DUNGEON_ENERGY_COST))
      a (if entropy % 100 < 70 then COMMON_SWORD
         else if entropy % 100 < 90 then RARE_SWORD else EPIC_SWORD) 1)
      a GOLD (20 + entropy % 100 % 31) := by
  rcases Nat.eq_zero_or_pos (s.balances a ENERGY) with h0 | h0
  · rw [runDungeon_err a entropy s h0] at h
    exact Except.noConfusion h
  · rw [runDungeon_ok a entropy s h0] at h
    exact ⟨h0, (Except.ok.inj h).symm⟩

theorem claimTimeRewards_inv (a now entropy : Nat) (s s1 : State)
    (h : exec (Op.claimTimeRewards a now entropy) s = .ok s1) :
    s.lastTimeRewardClaim a + TIME_REWARD_COOLDOWN ≤ now ∧
    s1 = mint (mint (setLastClaim (trackPlayer s a) a now)
      a ENERGY (1 + entropy % 100 % 2)) a GOLD (5 + entropy % 100 % 6) := by
  rcases Nat.lt_or_ge now (s.lastTimeRewardClaim a + TIME_REWARD_COOLDOWN)
    with hlt | hge
  · rw [claimTimeRewards_err a now entropy s hlt] at h
    exact Except.noConfusion h
  · rw [claimTimeRewards_ok a now entropy s hge] at h
    exact ⟨hge, (Except.ok.inj h).symm⟩

theorem craftRareSword_ok (a : Nat) (s : State)
    (h : 3 ≤ s.balances a COMMON_SWORD) :
    exec (Op.craftRareSword a) s =
      .ok (mint (setBalance (trackPlayer s a) a COMMON_SWORD
        ((trackPlayer s a).balances a COMMON_SWORD - 3)) a RARE_SWORD 1) := by
  have hle : 3 ≤ (trackPlayer s a).balances a COMMON_SWORD := by
    rw [trackPlayer_balances]; exact h
  show craftRareSword a s = _
  simp only [craftRareSword]
  rw [burn_ok _ _ _ _ hle, if_neg (by omega)]

theorem craftRareSword_err (a : Nat) (s : State)
    (h : s.balances a COMMON_SWORD < 3) :
    exec (Op.craftRareSword a) s = .error .InsufficientBalance := by
  show craftRareSword a s = _
  simp only [craftRareSword]
  rw [if_pos]
  rw [trackPlayer_balances]
  exact h

theorem craftRareSword_inv (a : Nat) (s s1 : State)
    (h : exec (Op.craftRareSword a) s = .ok s1) :
    s1 = mint (setBalance (trackPlayer s a) a COMMON_SWORD
      ((trackPlayer s a).balances a COMMON_SWORD - 3)) a RARE_SWORD 1 := by
  rcases Nat.lt_or_ge (s.balances a COMMON_SWORD) 3 with h3 | h3
  · rw [craftRareSword_err a s h3] at h
    exact Except.noConfusion h
  · rw [craftRareSword_ok a s h3] at h
    exact (Except.ok.inj h).symm

theorem craftEpicSword_ok (a : Nat) (s : State)
    (h : 2 ≤ s.balances a RARE_SWORD) :
    exec (Op.craftEpicSword a) s =
      .ok (mint (setBalance (trackPlayer s a) a RARE_SWORD
        ((trackPlayer s a).balances a RARE_SWORD - 2)) a EPIC_SWORD 1) := by
  have hle : 2 ≤ (trackPlayer s a).balances a RARE_SWORD := by
    rw [trackPlayer_balances]; exact h
  show craftEpicSword a s = _
  simp only [craftEpicSword]
  rw [burn_ok _ _ _ _ hle, if_neg (by omega)]

theorem craftEpicSword_err (a : Nat) (s : State)
    (h : s.balances a RARE_SWORD < 2) :
    exec (Op.craftEpicSword a) s = .error .InsufficientBalance := by
  show craftEpicSword a s = _
  simp only [craftEpicSword]
  rw [if_pos]
  rw [trackPlayer_balances]
  exact h

theorem craftEpicSword_inv (a : Nat) (s s1 : State)
    (h : exec (Op.craftEpicSword a) s = .ok s1) :
    s1 = mint (setBalance (trackPlayer s a) a RARE_SWORD
      ((trackPlayer s a).balances a RARE_SWORD - 2)) a EPIC_SWORD 1 := by
  rcases Nat.lt_or_ge (s.balances a RARE_SWORD) 2 with h2 | h2
  · rw [craftEpicSword_err a s h2] at h
    exact Except.noConfusion h
  · rw [craftEpicSword_ok a s h2] at h
    exact (Except.ok.inj h).symm

theorem craftLegendarySword_invalid (a v : Nat) (s : State)
    (h : v < LEGENDARY_SWORD_1 ∨ LEGENDARY_SWORD_5 < v) :
    exec (Op.craftLegendarySword a v) s = .error .InvalidVariant := by
  show craftLegendarySword a v s = _
  simp only [craftLegendarySword]
  rw [if_pos h]

theorem craftLegendarySword_already (a v : Nat) (s : State)
    (hv : LEGENDARY_SWORD_1 ≤ v) (hv2 : v ≤ LEGENDARY_SWORD_5)
    (h : s.hasCraftedLegendary a v = true) :
    exec (Op.craftLegendarySword a v) s = .error .AlreadyCrafted := by
  show craftLegendarySword a v s = _
  simp only [craftLegendarySword, trackPlayer_legendary, h]
  rw [if_neg (by omega)]
  simp

theorem craftLegendarySword_ok (a v : Nat) (s : State)
    (hv : LEGENDARY_SWORD_1 ≤ v) (hv2 : v ≤ LEGENDARY_SWORD_5)
    (hf : s.hasCraftedLegendary a v = false)
    (he : 5 ≤ s.balances a EPIC_SWORD)
    (hg : 1000 ≤ s.balances a GOLD) :
    exec (Op.craftLegendarySword a v) s =
      .ok (mint (setBalance (setBalance
          (setLegendaryFlag (trackPlayer s a) a v true)
          a EPIC_SWORD
          ((setLegendaryFlag (trackPlayer s a) a v true).balances
            a EPIC_SWORD - 5))
        a GOLD
        ((setBalance (setLegendaryFlag (trackPlayer s a) a v true)
            a EPIC_SWORD
            ((setLegendaryFlag (trackPlayer s a) a v true).balances
              a EPIC_SWORD - 5)).balances a GOLD - 1000))
        a v 1) := by
  have h1 : 5 ≤ (setLegendaryFlag (trackPlayer s a) a v true).balances
      a EPIC_SWORD := by
    rw [setLegendaryFlag_balances, trackPlayer_balances]; exact he
  have h2 : 1000 ≤ (setBalance (setLegendaryFlag (trackPlayer s a) a v true)
      a EPIC_SWORD ((setLegendaryFlag (trackPlayer s a) a v true).balances
        a EPIC_SWORD - 5)).balances a GOLD := by
    rw [setBalance_balances]
    rw [if_neg (by simp [GOLD, EPIC_SWORD])]
    rw [setLegendaryFlag_balances, trackPlayer_balances]
    exact hg
  show craftLegendarySword a v s = _
  simp only [craftLegendarySword, trackPlayer_legendary, trackPlayer_balances,
    hf]
  rw [if_neg (by omega)]
  simp only [Bool.false_eq_true, if_false]
  rw [if_neg (by omega), if_neg (by omega)]
  simp only [burn_ok _ _ _ _ h1]
  simp only [burn_ok _ _ _ _ h2]

theorem craftLegendarySword_inv (a v : Nat) (s s1 : State)
    (h : exec (Op.craftLegendarySword a v) s = .ok s1) :
    LEGENDARY_SWORD_1 ≤ v ∧ v ≤ LEGENDARY_SWORD_5 ∧
    s.hasCraftedLegendary a v = false ∧
    s1 = mint (setBalance (setBalance
        (setLegendaryFlag (trackPlayer s a) a v true)
        a EPIC_SWORD
        ((setLegendaryFlag (trackPlayer s a) a v true).balances
          a EPIC_SWORD - 5))
      a GOLD
      ((setBalance (setLegendaryFlag (trackPlayer s a) a v true)
          a EPIC_SWORD
          ((setLegendaryFlag (trackPlayer s a) a v true).balances
            a EPIC_SWORD - 5)).balances a GOLD - 1000))
      a v 1 := by
  rcases Nat.lt_or_ge v LEGENDARY_SWORD_1 with hv | hv
  · rw [craftLegendarySword_invalid a v s (Or.inl hv)] at h
    exact Except.noConfusion h
  rcases Nat.lt_or_ge LEGENDARY_SWORD_5 v with hv2 | hv2
  · rw [craftLegendarySword_invalid a v s (Or.inr hv2)] at h
    exact Except.noConfusion h
  by_cases hf : s.hasCraftedLegendary a v = true
  · rw [craftLegendarySword_already a v s hv hv2 hf] at h
    exact Except.noConfusion h
  have hf2 : s.hasCraftedLegendary a v = false := by simpa using hf
  rcases Nat.lt_or_ge (s.balances a EPIC_SWORD) 5 with he | he
  · have herr : exec (Op.craftLegendarySword a v) s =
        .error .InsufficientBalance := by
      show craftLegendarySword a v s = _
      simp only [craftLegendarySword, trackPlayer_legendary,
        trackPlayer_balances, hf2]
      rw [if_neg (by omega)]
      simp only [Bool.false_eq_true, if_false]
      rw [if_pos he]
    rw [herr] at h
    exact Except.noConfusion h
  rcases Nat.lt_or_ge (s.balances a GOLD) 1000 with hg | hg
  · have herr : exec (Op.craftLegendarySword a v) s =
        .error .InsufficientBalance := by
      show craftLegendarySword a v s = _
      simp only [craftLegendarySword, trackPlayer_legendary,
        trackPlayer_balances, hf2]
      rw [if_neg (by omega)]
      simp only [Bool.false_eq_true, if_false]
      rw [if_neg (by omega), if_pos hg]
    rw [herr] at h
    exact Except.noConfusion h
  rw [craftLegendarySword_ok a v s hv hv2 hf2 he hg] at h
  exact ⟨hv, hv2, hf2, (Except.ok.inj h).symm⟩



theorem burn_inv (s s1 : State) (a t amt : Nat)
    (h : burn s a t amt = .ok s1) :
    amt ≤ s.balances a t ∧ s1 = setBalance s a t (s.balances a t - amt) := by
  unfold burn at h
  split at h
  · exact Except.noConfusion h
  · next hlt => exact ⟨by omega, (Except.ok.inj h).symm⟩

theorem burnList_cons (c t0 a0 : Nat) (rest : List (Nat × Nat)) (s : State) :
    burnList c ((t0, a0) :: rest) s =
      match burn s c t0 a0 with
      | .error e => .error e
      | .ok s2 => burnList c rest s2 := rfl

theorem burnList_ok_of_total (c : Nat) (pairs : List (Nat × Nat)) (s : State)
    (h : ∀ t, totalBurn pairs t ≤ s.balances c t) :
    ∃ s1, burnList c pairs s = .ok s1 ∧
      (∀ t, s1.balances c t = s.balances c t - totalBurn pairs t) ∧
      (∀ x y, x ≠ c → s1.balances x y = s.balances x y) ∧
      s1.hasClaimedStarterPack = s.hasClaimedStarterPack ∧
      s1.hasCraftedLegendary = s.hasCraftedLegendary ∧
      s1.lastTimeRewardClaim = s.lastTimeRewardClaim ∧
      s1.playerList = s.playerList ∧ s1.isPlayer = s.isPlayer ∧
      s1.owner = s.owner := by
  induction pairs generalizing s with
  | nil =>
    exact ⟨s, rfl, fun t => by simp [totalBurn], fun x y _ => rfl,
      rfl, rfl, rfl, rfl, rfl, rfl⟩
  | cons q rest ih =>
    obtain ⟨t0, a0⟩ := q
    have ht0 := h t0
    simp [totalBurn] at ht0
    have h0 : a0 ≤ s.balances c t0 := by omega
    have hstep : burn s c t0 a0 =
        .ok (setBalance s c t0 (s.balances c t0 - a0)) := burn_ok s c t0 a0 h0
    have hrest : ∀ t, totalBurn rest t ≤
        (setBalance s c t0 (s.balances c t0 - a0)).balances c t := by
      intro t
      rw [setBalance_balances]
      by_cases ht : t = t0
      · subst ht
        simp only [and_self, if_true, eq_self_iff_true]
        omega
      · rw [if_neg (by tauto)]
        have := h t
        simp only [totalBurn] at this
        omega
    obtain ⟨s1, hb, hbal, hoth, hst, hleg, hlast, hpl, hip, how⟩ :=
      ih (setBalance s c t0 (s.balances c t0 - a0)) hrest
    refine ⟨s1, ?_, ?_, ?_, hst, hleg, hlast, hpl, hip, how⟩
    · rw [burnList_cons, hstep]
      exact hb
    · intro t
      rw [hbal t, setBalance_balances]
      simp only [totalBurn]
      by_cases ht : t = t0
      · subst ht
        simp only [and_self, if_true, eq_self_iff_true]
        omega
      · rw [if_neg (by tauto), if_neg (Ne.symm ht)]
        omega
    · intro x y hx
      rw [hoth x y hx, setBalance_balances, if_neg (by tauto)]

theorem burnList_inv (c : Nat) (pairs : List (Nat × Nat)) (s s1 : State)
    (h : burnList c pairs s = .ok s1) :
    (∀ x y, s1.balances x y ≤ s.balances x y) ∧
    s1.hasClaimedStarterPack = s.hasClaimedStarterPack ∧
    s1.hasCraftedLegendary = s.hasCraftedLegendary ∧
    s1.lastTimeRewardClaim = s.lastTimeRewardClaim ∧
    s1.playerList = s.playerList ∧ s1.isPlayer = s.isPlayer ∧
    s1.owner = s.owner := by
  induction pairs generalizing s with
  | nil =>
    have h1 : s = s1 := Except.ok.inj h
    subst h1
    exact ⟨fun x y => le_refl _, rfl, rfl, rfl, rfl, rfl, rfl⟩
  | cons q rest ih =>
    obtain ⟨t0, a0⟩ := q
    rw [burnList_cons] at h
    cases hb : burn s c t0 a0 with
    | error e => rw [hb] at h; exact Except.noConfusion h
    | ok s2 =>
      rw [hb] at h
      obtain ⟨hle, hs2⟩ := burn_inv s s2 c t0 a0 hb
      obtain ⟨ihle, ihst, ihleg, ihlast, ihpl, ihip, ihow⟩ := ih s2 h
      subst hs2
      refine ⟨?_, ihst, ihleg, ihlast, ihpl, ihip, ihow⟩
      intro x y
      refine le_trans (ihle x y) ?_
      rw [setBalance_balances]
      split
      · next hc => obtain ⟨rfl, rfl⟩ := hc; omega
      · exact le_refl _

theorem craftItem_inv (c : Nat) (ids amts : List Nat) (r : Nat) (s s1 : State)
    (h : exec (Op.craftItem c ids amts r) s = .ok s1) :
    ids.length = amts.length ∧
    ∃ s2, burnList c (ids.zip amts) (trackPlayer s c) = .ok s2 ∧
      s1 = mint s2 c r 1 := by
  simp only [exec, craftItem] at h
  split at h
  · next hlen =>
    refine ⟨hlen, ?_⟩
    cases hb : burnList c (ids.zip amts) (trackPlayer s c) with
    | error e => rw [hb] at h; exact Except.noConfusion h
    | ok s2 =>
      rw [hb] at h
      exact ⟨s2, rfl, (Except.ok.inj h).symm⟩
  · exact Except.noConfusion h

theorem mintEnergy_ok (r amt : Nat) (s : State) :
    exec (Op.mintEnergy s.owner r amt) s =
      .ok (mint (trackPlayer s r) r ENERGY amt) := by
  show mintEnergy s.owner r amt s = _
  simp only [mintEnergy]
  rw [if_neg (by simp)]

theorem mintEnergy_inv (c r amt : Nat) (s s1 : State)
    (h : exec (Op.mintEnergy c r amt) s = .ok s1) :
    c = s.owner ∧ s1 = mint (trackPlayer s r) r ENERGY amt := by
  simp only [exec, mintEnergy] at h
  split at h
  · exact Except.noConfusion h
  · next hc => exact ⟨by simpa using hc, (Except.ok.inj h).symm⟩

theorem mintGold_ok (r amt : Nat) (s : State) :
    exec (Op.mintGold s.owner r amt) s =
      .ok (mint (trackPlayer s r) r GOLD amt) := by
  show mintGold s.owner r amt s = _
  simp only [mintGold]
  rw [if_neg (by simp)]

theorem mintGold_inv (c r amt : Nat) (s s1 : State)
    (h : exec (Op.mintGold c r amt) s = .ok s1) :
    c = s.owner ∧ s1 = mint (trackPlayer s r) r GOLD amt := by
  simp only [exec, mintGold] at h
  split at h
  · exact Except.noConfusion h
  · next hc => exact ⟨by simpa using hc, (Except.ok.inj h).symm⟩

theorem resetPlayer_ok (t : Nat) (s : State) :
    exec (Op.resetPlayer s.owner t) s = .ok (resetPlayerState s t) := by
  show resetPlayer s.owner t s = _
  simp only [resetPlayer]
  rw [if_neg (by simp)]

theorem resetPlayer_inv (c t : Nat) (s s1 : State)
    (h : exec (Op.resetPlayer c t) s = .ok s1) :
    c = s.owner ∧ s1 = resetPlayerState s t := by
  simp only [exec, resetPlayer] at h
  split at h
  · exact Except.noConfusion h
  · next hc => exact ⟨by simpa using hc, (Except.ok.inj h).symm⟩

theorem resetPlayers_inv (c : Nat) (ts : List Nat) (s s1 : State)
    (h : exec (Op.resetPlayers c ts) s = .ok s1) :
    c = s.owner ∧ s1 = ts.foldl resetPlayerState s := by
  simp only [exec, resetPlayers] at h
  split at h
  · exact Except.noConfusion h
  · next hc => exact ⟨by simpa using hc, (Except.ok.inj h).symm⟩

theorem resetAllPlayers_inv (c : Nat) (s s1 : State)
    (h : exec (Op.resetAllPlayers c) s = .ok s1) :
    c = s.owner ∧ s1 = s.playerList.foldl resetPlayerState s := by
  simp only [exec, resetAllPlayers] at h
  split at h
  · exact Except.noConfusion h
  · next hc => exact ⟨by simpa using hc, (Except.ok.inj h).symm⟩

/-- C6: an owner-issued reset never fails; afterwards the target's ten
known token balances are zero, all flags are cleared and the timestamp is
zero, while the registry and every other account's data are untouched. -/
theorem resetAccount_spec (s : State) (a : Nat) :
    execOk (Op.resetPlayer s.owner a) s = true ∧
    (∀ t, t ∈ knownTokenIds →
      (applyTx (Op.resetPlayer s.owner a) s).balances a t = 0) ∧
    (applyTx (Op.resetPlayer s.owner a) s).hasClaimedStarterPack a = false ∧
    (∀ v, v ∈ legendaryIds →
      (applyTx (Op.resetPlayer s.owner a) s).hasCraftedLegendary a v
        = false) ∧
    (applyTx (Op.resetPlayer s.owner a) s).lastTimeRewardClaim a = 0 ∧
    (applyTx (Op.resetPlayer s.owner a) s).playerList = s.playerList ∧
    (applyTx (Op.resetPlayer s.owner a) s).isPlayer = s.isPlayer ∧
    (∀ b t, b ≠ a →
      (applyTx (Op.resetPlayer s.owner a) s).balances b t
        = s.balances b t) ∧
    (∀ b, b ≠ a →
      (applyTx (Op.resetPlayer s.owner a) s).hasClaimedStarterPack b
        = s.hasClaimedStarterPack b) ∧
    (∀ b v, b ≠ a →
      (applyTx (Op.resetPlayer s.owner a) s).hasCraftedLegendary b v
        = s.hasCraftedLegendary b v) ∧
    (∀ b, b ≠ a →
      (applyTx (Op.resetPlayer s.owner a) s).lastTimeRewardClaim b
        = s.lastTimeRewardClaim b) := by
  have hex := resetPlayer_ok a s
  have happ := applyTx_of_ok _ _ _ hex
  refine ⟨execOk_of_ok _ _ _ hex, ?_, ?_, ?_, ?_, ?_, ?_, ?_, ?_, ?_, ?_⟩
  · intro t ht
    rw [happ, resetPlayerState_balances, if_pos ⟨rfl, ht⟩]
  · rw [happ, resetPlayerState_starter, if_pos rfl]
  · intro v hv
    rw [happ, resetPlayerState_legendary, if_pos ⟨rfl, hv⟩]
  · rw [happ, resetPlayerState_last, if_pos rfl]
  · rw [happ, resetPlayerState_playerList]
  · rw [happ, resetPlayerState_isPlayer]
  · intro b t hb
    rw [happ, resetPlayerState_balances, if_neg (by tauto)]
  · intro b hb
    rw [happ, resetPlayerState_starter, if_neg hb]
  · intro b v hb
    rw [happ, resetPlayerState_legendary, if_neg (by tauto)]
  · intro b hb
    rw [happ, resetPlayerState_last, if_neg hb]

theorem resetAccount_spec_witness :
    (GOLD ∈ knownTokenIds ∧
      (applyTx (Op.resetPlayer (initialState 0).owner 0)
        (initialState 0)).balances 0 GOLD = 0) ∧
    (applyTx (Op.resetPlayer (initialState 0).owner 0)
      (initialState 0)).playerList = (initialState 0).playerList :=
  ⟨⟨by decide, (resetAccount_spec (initialState 0) 0).2.1 GOLD (by decide)⟩,
    (resetAccount_spec (initialState 0) 0).2.2.2.2.2.1⟩

/-- C9 counterexample: account 1 holds exactly one Common Sword, so it
holds at least `burnAmounts[i]` of `burnIds[i]` at each index of
`craftItem([1001, 1001], [1, 1], 1002)`, yet the call reverts with
InsufficientBalance because the two burns are applied sequentially. -/
theorem craftItem_per_index_counterexample :
    (applyTx (Op.claimStarterPack 1) (initialState 0)).balances 1
      COMMON_SWORD = 1 ∧
    (∀ q ∈ [(COMMON_SWORD, 1), (COMMON_SWORD, 1)],
      q.2 ≤ (applyTx (Op.claimStarterPack 1) (initialState 0)).balances 1
        q.1) ∧
    exec (Op.craftItem 1 [COMMON_SWORD, COMMON_SWORD] [1, 1] RARE_SWORD)
        (applyTx (Op.claimStarterPack 1) (initialState 0)) =
      .error .InsufficientBalance := by
  refine ⟨by decide, ?_, rfl⟩
  intro q hq
  fin_cases hq <;> decide

/-- C9 (amended): craftItem succeeds whenever the id and amount lists have
equal length and the caller holds at least the total burn amount of every
token; it then burns exactly those totals and mints one unit of an
arbitrary `resultId` — legendary variants included — while reading or
writing no craft flag; with empty arrays it burns nothing. -/
theorem craftItem_spec (c : Nat) (ids amts : List Nat) (r : Nat) (s : State)
    (hlen : ids.length = amts.length)
    (htot : ∀ t, totalBurn (ids.zip amts) t ≤ s.balances c t) :
    execOk (Op.craftItem c ids amts r) s = true ∧
    (∀ t, (applyTx (Op.craftItem c ids amts r) s).balances c t =
      s.balances c t - totalBurn (ids.zip amts) t +
        (if r = t then 1 else 0)) ∧
    (∀ x y, x ≠ c → (applyTx (Op.craftItem c ids amts r) s).balances x y =
      s.balances x y) ∧
    (applyTx (Op.craftItem c ids amts r) s).hasCraftedLegendary =
      s.hasCraftedLegendary ∧
    (applyTx (Op.craftItem c ids amts r) s).hasClaimedStarterPack =
      s.hasClaimedStarterPack ∧
    (applyTx (Op.craftItem c ids amts r) s).lastTimeRewardClaim =
      s.lastTimeRewardClaim ∧
    (ids = [] → amts = [] → ∀ t,
      (applyTx (Op.craftItem c ids amts r) s).balances c t =
        s.balances c t + (if r = t then 1 else 0)) := by
  have htot2 : ∀ t, totalBurn (ids.zip amts) t ≤
      (trackPlayer s c).balances c t := by
    intro t
    rw [trackPlayer_balances]
    exact htot t
  obtain ⟨s2, hb, hbal, hoth, hst, hleg, hlast, hpl, hip, how⟩ :=
    burnList_ok_of_total c (ids.zip amts) (trackPlayer s c) htot2
  have hex : exec (Op.craftItem c ids amts r) s = .ok (mint s2 c r 1) := by
    show craftItem c ids amts r s = _
    simp only [craftItem]
    rw [if_pos hlen, hb]
  have happ := applyTx_of_ok _ _ _ hex
  have hbal2 : ∀ t, (applyTx (Op.craftItem c ids amts r) s).balances c t =
      s.balances c t - totalBurn (ids.zip amts) t +
        (if r = t then 1 else 0) := by
    intro t
    rw [happ, mint_balances]
    by_cases hr : r = t
    · subst hr
      rw [if_pos ⟨rfl, rfl⟩, if_pos rfl, hbal r, trackPlayer_balances]
    · rw [if_neg (by tauto), if_neg hr, hbal t, trackPlayer_balances]
      omega
  refine ⟨execOk_of_ok _ _ _ hex, hbal2, ?_, ?_, ?_, ?_, ?_⟩
  · intro x y hx
    rw [happ, mint_balances, if_neg (by tauto), hoth x y hx,
      trackPlayer_balances]
  · rw [happ, mint_legendary, hleg, trackPlayer_legendary]
  · rw [happ, mint_starter, hst, trackPlayer_starter]
  · rw [happ, mint_last, hlast, trackPlayer_last]
  · intro hids hamts t
    have := hbal2 t
    subst hids hamts
    simpa [totalBurn] using this

theorem craftItem_spec_witness :
    (([] : List Nat).length = ([] : List Nat).length ∧
      State.balances
          (applyTx (Op.craftItem 1 [] [] LEGENDARY_SWORD_1) (initialState 0))
          1 LEGENDARY_SWORD_1 =
        (initialState 0).balances 1 LEGENDARY_SWORD_1 -
          totalBurn ([].zip []) LEGENDARY_SWORD_1 +
          (if LEGENDARY_SWORD_1 = LEGENDARY_SWORD_1 then 1 else 0)) :=
  ⟨rfl, (craftItem_spec 1 [] [] LEGENDARY_SWORD_1 (initialState 0) rfl
    (by intro t; simp [totalBurn])).2.1 LEGENDARY_SWORD_1⟩



/-- C7 counterexample: after a successful time-reward claim at time 300 the
owner's timestamp is 300, and an admin reset then lowers it to 0. -/
theorem lastReward_monotone_counterexample :
    State.lastTimeRewardClaim (applyTx (Op.claimTimeRewards 0 300 7)
      (initialState 0)) 0 = 300 ∧
    State.lastTimeRewardClaim (applyTx (Op.resetPlayer 0 0)
      (applyTx (Op.claimTimeRewards 0 300 7) (initialState 0))) 0 = 0 ∧
    ¬ (300 : Nat) ≤ 0 :=
  ⟨by decide, by decide, by decide⟩

/-- C7 (amended): the per-account timestamp is non-decreasing under every
operation except the admin resets, which reset the target's timestamp
to 0. -/
theorem lastReward_monotone_except_reset :
    (∀ op s a, isAdminReset op = false →
      s.lastTimeRewardClaim a ≤ (applyTx op s).lastTimeRewardClaim a) ∧
    (∀ s t, State.lastTimeRewardClaim
      (applyTx (Op.resetPlayer s.owner t) s) t = 0) := by
  constructor
  · intro op s a h
    cases hexec : exec op s with
    | error e => rw [applyTx_of_error op s e hexec]
    | ok s1 =>
      rw [applyTx_of_ok op s s1 hexec]
      cases op with
      | claimStarterPack c =>
        rw [claimStarterPack_inv c s s1 hexec, mint_last, mint_last,
          mint_last, setStarterFlag_last, trackPlayer_last]
      | runDungeon c e =>
        obtain ⟨-, h1⟩ := runDungeon_inv c e s s1 hexec
        rw [h1, mint_last, mint_last, setBalance_last, trackPlayer_last]
      | claimTimeRewards c now e =>
        obtain ⟨hge, h1⟩ := claimTimeRewards_inv c now e s s1 hexec
        rw [h1, mint_last, mint_last, setLastClaim_last]
        by_cases hac : a = c
        · subst hac
          rw [if_pos rfl]
          have := TIME_REWARD_COOLDOWN
          omega
        · rw [if_neg hac, trackPlayer_last]
      | craftItem c ids amts r =>
        obtain ⟨-, s2, hb, h1⟩ := craftItem_inv c ids amts r s s1 hexec
        obtain ⟨-, -, -, hlast, -, -, -⟩ :=
          burnList_inv c (ids.zip amts) _ s2 hb
        rw [h1, mint_last, hlast, trackPlayer_last]
      | craftRareSword c =>
        rw [craftRareSword_inv c s s1 hexec, mint_last, setBalance_last,
          trackPlayer_last]
      | craftEpicSword c =>
        rw [craftEpicSword_inv c s s1 hexec, mint_last, setBalance_last,
          trackPlayer_last]
      | craftLegendarySword c v =>
        obtain ⟨-, -, -, h1⟩ := craftLegendarySword_inv c v s s1 hexec
        rw [h1, mint_last, setBalance_last, setBalance_last,
          setLegendaryFlag_last, trackPlayer_last]
      | mintEnergy c r amt =>
        obtain ⟨-, h1⟩ := mintEnergy_inv c r amt s s1 hexec
        rw [h1, mint_last, trackPlayer_last]
      | mintGold c r amt =>
        obtain ⟨-, h1⟩ := mintGold_inv c r amt s s1 hexec
        rw [h1, mint_last, trackPlayer_last]
      | resetPlayer c t => simp [isAdminReset] at h
      | resetPlayers c ts => simp [isAdminReset] at h
      | resetAllPlayers c => simp [isAdminReset] at h
  · intro s t
    rw [applyTx_of_ok _ _ _ (resetPlayer_ok t s), resetPlayerState_last,
      if_pos rfl]

theorem lastReward_monotone_except_reset_witness :
    isAdminReset (Op.claimTimeRewards 1 300 7) = false ∧
    State.lastTimeRewardClaim (initialState 0) 1 ≤
      State.lastTimeRewardClaim (applyTx (Op.claimTimeRewards 1 300 7)
        (initialState 0)) 1 :=
  ⟨by decide, lastReward_monotone_except_reset.1
    (Op.claimTimeRewards 1 300 7) (initialState 0) 1 (by decide)⟩



theorem trackPlayer_isPlayer_self (s : State) (p : Nat) :
    (trackPlayer s p).isPlayer p = true := by
  rw [trackPlayer_isPlayer, if_pos rfl]

theorem trackPlayer_isPlayer_mono (s : State) (p a : Nat)
    (h : s.isPlayer a = true) : (trackPlayer s p).isPlayer a = true := by
  rw [trackPlayer_isPlayer]
  split
  · rfl
  · exact h

theorem foldlReset_isPlayer (ts : List Nat) (s : State) :
    (ts.foldl resetPlayerState s).isPlayer = s.isPlayer := by
  induction ts generalizing s with
  | nil => rfl
  | cons t rest ih => rw [List.foldl_cons, ih, resetPlayerState_isPlayer]

/-- C8 counterexample: after the single transaction `mintEnergy(1, 5)`
sent by the owner 0, account 1 is present in the registry although no
executed operation has caller 1. -/
theorem registry_tracking_counterexample :
    State.isPlayer (applyTx (Op.mintEnergy 0 1 5) (initialState 0)) 1
      = true ∧
    (∀ op ∈ [Op.mintEnergy 0 1 5], Op.caller op ≠ 1) := by
  refine ⟨by decide, ?_⟩
  intro op hop
  fin_cases hop
  decide

/-- C8 (amended): the player-facing entry points track their caller as
their first step, so every successful player-facing operation leaves its
caller registered, and registry membership is never removed; the admin
mints instead register the recipient, and the deployer is registered at
construction — so membership is not equivalent to having executed a
state-changing operation. -/
theorem registry_tracking_spec :
    (∀ op s s1, playerFacing op = true → exec op s = .ok s1 →
      s1.isPlayer (Op.caller op) = true) ∧
    (∀ op s a, s.isPlayer a = true → (applyTx op s).isPlayer a = true) ∧
    (∀ c r amt s s1, exec (Op.mintEnergy c r amt) s = .ok s1 →
      s1.isPlayer r = true) ∧
    (∀ c r amt s s1, exec (Op.mintGold c r amt) s = .ok s1 →
      s1.isPlayer r = true) ∧
    (∀ d, (initialState d).isPlayer d = true) := by
  refine ⟨?_, ?_, ?_, ?_, ?_⟩
  · intro op s s1 hpf hexec
    cases op with
    | claimStarterPack c =>
      rw [claimStarterPack_inv c s s1 hexec]
      simp only [Op.caller, mint_isPlayer, setStarterFlag_isPlayer]
      exact trackPlayer_isPlayer_self s c
    | runDungeon c e =>
      obtain ⟨-, h1⟩ := runDungeon_inv c e s s1 hexec
      rw [h1]
      simp only [Op.caller, mint_isPlayer, setBalance_isPlayer]
      exact trackPlayer_isPlayer_self s c
    | claimTimeRewards c now e =>
      obtain ⟨-, h1⟩ := claimTimeRewards_inv c now e s s1 hexec
      rw [h1]
      simp only [Op.caller, mint_isPlayer, setLastClaim_isPlayer]
      exact trackPlayer_isPlayer_self s c
    | craftItem c ids amts r =>
      obtain ⟨-, s2, hb, h1⟩ := craftItem_inv c ids amts r s s1 hexec
      obtain ⟨-, -, -, -, -, hip, -⟩ := burnList_inv c (ids.zip amts) _ s2 hb
      rw [h1]
      simp only [Op.caller, mint_isPlayer, hip]
      exact trackPlayer_isPlayer_self s c
    | craftRareSword c =>
      rw [craftRareSword_inv c s s1 hexec]
      simp only [Op.caller, mint_isPlayer, setBalance_isPlayer]
      exact trackPlayer_isPlayer_self s c
    | craftEpicSword c =>
      rw [craftEpicSword_inv c s s1 hexec]
      simp only [Op.caller, mint_isPlayer, setBalance_isPlayer]
      exact trackPlayer_isPlayer_self s c
    | craftLegendarySword c v =>
      obtain ⟨-, -, -, h1⟩ := craftLegendarySword_inv c v s s1 hexec
      rw [h1]
      simp only [Op.caller, mint_isPlayer, setBalance_isPlayer,
        setLegendaryFlag_isPlayer]
      exact trackPlayer_isPlayer_self s c
    | mintEnergy c r amt => simp [playerFacing] at hpf
    | mintGold c r amt => simp [playerFacing] at hpf
    | resetPlayer c t => simp [playerFacing] at hpf
    | resetPlayers c ts => simp [playerFacing] at hpf
    | resetAllPlayers c => simp [playerFacing] at hpf
  · intro op s a h
    cases hexec : exec op s with
    | error e => rw [applyTx_of_error op s e hexec]; exact h
    | ok s1 =>
      rw [applyTx_of_ok op s s1 hexec]
      cases op with
      | claimStarterPack c =>
        rw [claimStarterPack_inv c s s1 hexec]
        simp only [mint_isPlayer, setStarterFlag_isPlayer]
        exact trackPlayer_isPlayer_mono s c a h
      | runDungeon c e =>
        obtain ⟨-, h1⟩ := runDungeon_inv c e s s1 hexec
        rw [h1]
        simp only [mint_isPlayer, setBalance_isPlayer]
        exact trackPlayer_isPlayer_mono s c a h
      | claimTimeRewards c now e =>
        obtain ⟨-, h1⟩ := claimTimeRewards_inv c now e s s1 hexec
        rw [h1]
        simp only [mint_isPlayer, setLastClaim_isPlayer]
        exact trackPlayer_isPlayer_mono s c a h
      | craftItem c ids amts r =>
        obtain ⟨-, s2, hb, h1⟩ := craftItem_inv c ids amts r s s1 hexec
        obtain ⟨-, -, -, -, -, hip, -⟩ :=
          burnList_inv c (ids.zip amts) _ s2 hb
        rw [h1]
        simp only [mint_isPlayer, hip]
        exact trackPlayer_isPlayer_mono s c a h
      | craftRareSword c =>
        rw [craftRareSword_inv c s s1 hexec]
        simp only [mint_isPlayer, setBalance_isPlayer]
        exact trackPlayer_isPlayer_mono s c a h
      | craftEpicSword c =>
        rw [craftEpicSword_inv c s s1 hexec]
        simp only [mint_isPlayer, setBalance_isPlayer]
        exact trackPlayer_isPlayer_mono s c a h
      | craftLegendarySword c v =>
        obtain ⟨-, -, -, h1⟩ := craftLegendarySword_inv c v s s1 hexec
        rw [h1]
        simp only [mint_isPlayer, setBalance_isPlayer,
          setLegendaryFlag_isPlayer]
        exact trackPlayer_isPlayer_mono s c a h
      | mintEnergy c r amt =>
        obtain ⟨-, h1⟩ := mintEnergy_inv c r amt s s1 hexec
        rw [h1, mint_isPlayer]
        exact trackPlayer_isPlayer_mono s r a h
      | mintGold c r amt =>
        obtain ⟨-, h1⟩ := mintGold_inv c r amt s s1 hexec
        rw [h1, mint_isPlayer]
        exact trackPlayer_isPlayer_mono s r a h
      | resetPlayer c t =>
        obtain ⟨-, h1⟩ := resetPlayer_inv c t s s1 hexec
        rw [h1, resetPlayerState_isPlayer]
        exact h
      | resetPlayers c ts =>
        obtain ⟨-, h1⟩ := resetPlayers_inv c ts s s1 hexec
        rw [h1, foldlReset_isPlayer]
        exact h
      | resetAllPlayers c =>
        obtain ⟨-, h1⟩ := resetAllPlayers_inv c s s1 hexec
        rw [h1, foldlReset_isPlayer]
        exact h
  · intro c r amt s s1 hexec
    obtain ⟨-, h1⟩ := mintEnergy_inv c r amt s s1 hexec
    rw [h1, mint_isPlayer]
    exact trackPlayer_isPlayer_self s r
  · intro c r amt s s1 hexec
    obtain ⟨-, h1⟩ := mintGold_inv c r amt s s1 hexec
    rw [h1, mint_isPlayer]
    exact trackPlayer_isPlayer_self s r
  · intro d
    simp only [initialState]
    exact trackPlayer_isPlayer_self _ d

theorem registry_tracking_spec_witness :
    playerFacing (Op.claimStarterPack 1) = true ∧
    exec (Op.claimStarterPack 1) (initialState 0) =
      .ok (applyTx (Op.claimStarterPack 1) (initialState 0)) ∧
    State.isPlayer (applyTx (Op.claimStarterPack 1) (initialState 0))
      (Op.caller (Op.claimStarterPack 1)) = true :=
  ⟨by decide, rfl, registry_tracking_spec.1 (Op.claimStarterPack 1)
    (initialState 0) (applyTx (Op.claimStarterPack 1) (initialState 0))
    (by decide) rfl⟩





theorem legendaryBound_mint (s : State) (a t amt : Nat)
    (ht : t < LEGENDARY_SWORD_1 ∨ LEGENDARY_SWORD_5 < t)
    (h : legendaryBound s) : legendaryBound (mint s a t amt) := by
  intro x v hv1 hv2
  rw [mint_balances, mint_legendary]
  split
  · next hc =>
    obtain ⟨rfl, rfl⟩ := hc
    exfalso
    omega
  · exact h x v hv1 hv2

theorem legendaryBound_setBalance_le (s : State) (a t v : Nat)
    (hv : v ≤ s.balances a t) (h : legendaryBound s) :
    legendaryBound (setBalance s a t v) := by
  intro x w h1 h2
  rw [setBalance_balances, setBalance_legendary]
  split
  · next hc =>
    obtain ⟨rfl, rfl⟩ := hc
    exact le_trans hv (h x w h1 h2)
  · exact h x w h1 h2

theorem legendaryBound_trackPlayer (s : State) (p : Nat)
    (h : legendaryBound s) : legendaryBound (trackPlayer s p) := by
  intro x v h1 h2
  rw [trackPlayer_balances, trackPlayer_legendary]
  exact h x v h1 h2

theorem legendaryBound_setStarterFlag (s : State) (a : Nat) (b : Bool)
    (h : legendaryBound s) : legendaryBound (setStarterFlag s a b) := by
  intro x v h1 h2
  rw [setStarterFlag_balances, setStarterFlag_legendary]
  exact h x v h1 h2

theorem legendaryBound_setLastClaim (s : State) (a t : Nat)
    (h : legendaryBound s) : legendaryBound (setLastClaim s a t) := by
  intro x v h1 h2
  rw [setLastClaim_balances, setLastClaim_legendary]
  exact h x v h1 h2

theorem legendaryBound_setLegendaryFlagTrue (s : State) (a v : Nat)
    (h : legendaryBound s) : legendaryBound (setLegendaryFlag s a v true) := by
  intro x w h1 h2
  rw [setLegendaryFlag_balances, setLegendaryFlag_flag]
  split
  · rw [if_pos rfl]
    have := h x w h1 h2
    split at this <;> omega
  · exact h x w h1 h2

theorem legendaryBound_of_le (s s2 : State)
    (hle : ∀ x y, s2.balances x y ≤ s.balances x y)
    (hflag : s2.hasCraftedLegendary = s.hasCraftedLegendary)
    (h : legendaryBound s) : legendaryBound s2 := by
  intro x v h1 h2
  rw [hflag]
  exact le_trans (hle x v) (h x v h1 h2)

theorem legendaryBound_resetPlayerState (s : State) (p : Nat)
    (h : legendaryBound s) : legendaryBound (resetPlayerState s p) := by
  intro x v h1 h2
  rw [resetPlayerState_balances, resetPlayerState_legendary]
  by_cases hx : x = p
  · subst hx
    have h1n : 2001 ≤ v := h1
    have h2n : v ≤ 2005 := h2
    interval_cases v <;>
      simp [knownTokenIds, legendaryIds, ENERGY, GOLD, COMMON_SWORD,
        RARE_SWORD, EPIC_SWORD, LEGENDARY_SWORD_1, LEGENDARY_SWORD_2,
        LEGENDARY_SWORD_3, LEGENDARY_SWORD_4, LEGENDARY_SWORD_5]
  · rw [if_neg (show ¬(x = p ∧ v ∈ knownTokenIds) by tauto)]
    rw [if_neg (show ¬(x = p ∧ v ∈ legendaryIds) by tauto)]
    exact h x v h1 h2

theorem legendaryBound_foldlReset (ts : List Nat) (s : State)
    (h : legendaryBound s) :
    legendaryBound (ts.foldl resetPlayerState s) := by
  induction ts generalizing s with
  | nil => exact h
  | cons t rest ih =>
    rw [List.foldl_cons]
    exact ih _ (legendaryBound_resetPlayerState s t h)

theorem legendaryBound_applyTx (op : Op) (s : State)
    (hop : legendarySafe op = true) (h : legendaryBound s) :
    legendaryBound (applyTx op s) := by
  cases hexec : exec op s with
  | error e => rw [applyTx_of_error op s e hexec]; exact h
  | ok s1 =>
    rw [applyTx_of_ok op s s1 hexec]
    cases op with
    | claimStarterPack c =>
      rw [claimStarterPack_inv c s s1 hexec]
      exact legendaryBound_mint _ _ _ _ (Or.inl (by decide))
        (legendaryBound_mint _ _ _ _ (Or.inl (by decide))
          (legendaryBound_mint _ _ _ _ (Or.inl (by decide))
            (legendaryBound_setStarterFlag _ _ _
              (legendaryBound_trackPlayer _ _ h))))
    | runDungeon c e =>
      obtain ⟨-, h1⟩ := runDungeon_inv c e s s1 hexec
      rw [h1]
      exact legendaryBound_mint _ _ _ _ (Or.inl (by decide))
        (legendaryBound_mint _ _ _ _
          (Or.inl (by split_ifs <;> decide))
          (legendaryBound_setBalance_le _ _ _ _ (Nat.sub_le _ _)
            (legendaryBound_trackPlayer _ _ h)))
    | claimTimeRewards c now e =>
      obtain ⟨-, h1⟩ := claimTimeRewards_inv c now e s s1 hexec
      rw [h1]
      exact legendaryBound_mint _ _ _ _ (Or.inl (by decide))
        (legendaryBound_mint _ _ _ _ (Or.inl (by decide))
          (legendaryBound_setLastClaim _ _ _
            (legendaryBound_trackPlayer _ _ h)))
    | craftItem c ids amts r =>
      obtain ⟨-, s2, hb, h1⟩ := craftItem_inv c ids amts r s s1 hexec
      obtain ⟨hle, -, hleg, -, -, -, -⟩ := burnList_inv c (ids.zip amts) _ s2 hb
      have hr : r < LEGENDARY_SWORD_1 ∨ LEGENDARY_SWORD_5 < r := by
        simp only [legendarySafe] at hop
        split at hop
        · exact Bool.noConfusion hop
        · next hcond => omega
      rw [h1]
      exact legendaryBound_mint _ _ _ _ hr
        (legendaryBound_of_le _ _ hle hleg
          (legendaryBound_trackPlayer _ _ h))
    | craftRareSword c =>
      rw [craftRareSword_inv c s s1 hexec]
      exact legendaryBound_mint _ _ _ _ (Or.inl (by decide))
        (legendaryBound_setBalance_le _ _ _ _ (Nat.sub_le _ _)
          (legendaryBound_trackPlayer _ _ h))
    | craftEpicSword c =>
      rw [craftEpicSword_inv c s s1 hexec]
      exact legendaryBound_mint _ _ _ _ (Or.inl (by decide))
        (legendaryBound_setBalance_le _ _ _ _ (Nat.sub_le _ _)
          (legendaryBound_trackPlayer _ _ h))
    | craftLegendarySword c v =>
      obtain ⟨hv1, hv2, hf, h1⟩ := craftLegendarySword_inv c v s s1 hexec
      have hbal0 : s.balances c v = 0 := by
        have := h c v hv1 hv2
        rw [hf] at this
        simp at this
        omega
      have hS : legendaryBound (setBalance (setBalance
          (setLegendaryFlag (trackPlayer s c) c v true) c EPIC_SWORD
          ((setLegendaryFlag (trackPlayer s c) c v true).balances
            c EPIC_SWORD - 5)) c GOLD
          ((setBalance (setLegendaryFlag (trackPlayer s c) c v true)
            c EPIC_SWORD ((setLegendaryFlag (trackPlayer s c) c v
              true).balances c EPIC_SWORD - 5)).balances c GOLD - 1000)) :=
        legendaryBound_setBalance_le _ _ _ _ (Nat.sub_le _ _)
          (legendaryBound_setBalance_le _ _ _ _ (Nat.sub_le _ _)
            (legendaryBound_setLegendaryFlagTrue _ _ _
              (legendaryBound_trackPlayer _ _ h)))
      rw [h1]
      intro x w h1w h2w
      rw [mint_balances, mint_legendary]
      by_cases hxw : x = c ∧ w = v
      · obtain ⟨rfl, rfl⟩ := hxw
        rw [if_pos ⟨rfl, rfl⟩]
        have hSbal : (setBalance (setBalance
            (setLegendaryFlag (trackPlayer s x) x w true) x EPIC_SWORD
            ((setLegendaryFlag (trackPlayer s x) x w true).balances
              x EPIC_SWORD - 5)) x GOLD
            ((setBalance (setLegendaryFlag (trackPlayer s x) x w true)
              x EPIC_SWORD ((setLegendaryFlag (trackPlayer s x) x w
                true).balances x EPIC_SWORD - 5)).balances x GOLD
              - 1000)).balances x w = 0 := by
          have h1n : 2001 ≤ w := h1w
          rw [setBalance_balances]
          rw [if_neg (by intro hc; have hw : w = 2 := hc.2; omega)]
          rw [setBalance_balances]
          rw [if_neg (by intro hc; have hw : w = 1003 := hc.2; omega)]
          rw [setLegendaryFlag_balances, trackPlayer_balances]
          exact hbal0
        have hSflag : (setBalance (setBalance
            (setLegendaryFlag (trackPlayer s x) x w true) x EPIC_SWORD
            ((setLegendaryFlag (trackPlayer s x) x w true).balances
              x EPIC_SWORD - 5)) x GOLD
            ((setBalance (setLegendaryFlag (trackPlayer s x) x w true)
              x EPIC_SWORD ((setLegendaryFlag (trackPlayer s x) x w
                true).balances x EPIC_SWORD - 5)).balances x GOLD
              - 1000)).hasCraftedLegendary x w = true := by
          rw [setBalance_legendary, setBalance_legendary,
            setLegendaryFlag_flag, if_pos ⟨rfl, rfl⟩]
        rw [hSbal, hSflag]
        simp
      · rw [if_neg hxw]
        exact hS x w h1w h2w
    | mintEnergy c r amt =>
      obtain ⟨-, h1⟩ := mintEnergy_inv c r amt s s1 hexec
      rw [h1]
      exact legendaryBound_mint _ _ _ _ (Or.inl (by decide))
        (legendaryBound_trackPlayer _ _ h)
    | mintGold c r amt =>
      obtain ⟨-, h1⟩ := mintGold_inv c r amt s s1 hexec
      rw [h1]
      exact legendaryBound_mint _ _ _ _ (Or.inl (by decide))
        (legendaryBound_trackPlayer _ _ h)
    | resetPlayer c t =>
      obtain ⟨-, h1⟩ := resetPlayer_inv c t s s1 hexec
      rw [h1]
      exact legendaryBound_resetPlayerState s t h
    | resetPlayers c ts =>
      obtain ⟨-, h1⟩ := resetPlayers_inv c ts s s1 hexec
      rw [h1]
      exact legendaryBound_foldlReset ts s h
    | resetAllPlayers c =>
      obtain ⟨-, h1⟩ := resetAllPlayers_inv c s s1 hexec
      rw [h1]
      exact legendaryBound_foldlReset _ s h

theorem legendaryBound_applyTrace (s : State) (ops : List Op)
    (h : legendaryBound s) (hops : ∀ op ∈ ops, legendarySafe op = true) :
    legendaryBound (applyTrace s ops) := by
  induction ops generalizing s with
  | nil => exact h
  | cons op rest ih =>
    exact ih (applyTx op s)
      (legendaryBound_applyTx op s (hops op (by simp)) h)
      (fun o ho => hops o (by simp [ho]))

theorem legendaryBound_initialState (d : Nat) :
    legendaryBound (initialState d) := by
  intro a v h1 h2
  have h1n : 2001 ≤ v := h1
  simp only [initialState, mint_balances, mint_legendary,
    trackPlayer_balances, trackPlayer_legendary]
  rw [if_neg (by intro hc; have hv : v = 2 := hc.2; omega)]
  rw [if_neg (by intro hc; have hv : v = 1 := hc.2; omega)]
  simp

/-- C1 counterexample: two `craftItem` calls with empty burn lists mint
the legendary variant 2001 to account 1 twice, so the account holds two
tokens of one legendary variant after a sequence of public operations. -/
theorem craft_once_counterexample :
    State.balances (applyTrace (initialState 0)
      [Op.craftItem 1 [] [] 2001, Op.craftItem 1 [] [] 2001]) 1 2001 = 2 ∧
    ¬ State.balances (applyTrace (initialState 0)
      [Op.craftItem 1 [] [] 2001, Op.craftItem 1 [] [] 2001]) 1 2001 ≤ 1 :=
  ⟨by decide, by decide⟩

/-- C1 (amended): `craftLegendarySword` fails with AlreadyCrafted whenever
the variant's flag is already set, and along any sequence of public
operations in which `craftItem` is never called with a legendary result
id, every account holds at most one token of each legendary variant. -/
theorem craft_once_per_variant :
    (∀ s a v, LEGENDARY_SWORD_1 ≤ v → v ≤ LEGENDARY_SWORD_5 →
      s.hasCraftedLegendary a v = true →
      exec (Op.craftLegendarySword a v) s = .error .AlreadyCrafted) ∧
    (∀ d ops a v, (∀ op ∈ ops, legendarySafe op = true) →
      LEGENDARY_SWORD_1 ≤ v → v ≤ LEGENDARY_SWORD_5 →
      State.balances (applyTrace (initialState d) ops) a v ≤ 1) := by
  constructor
  · intro s a v hv1 hv2 hf
    exact craftLegendarySword_already a v s hv1 hv2 hf
  · intro d ops a v hops hv1 hv2
    have hb := legendaryBound_applyTrace (initialState d) ops
      (legendaryBound_initialState d) hops
    have := hb a v hv1 hv2
    split at this <;> omega

theorem craft_once_per_variant_witness :
    ((∀ op ∈ [Op.claimStarterPack 1, Op.runDungeon 1 65],
        legendarySafe op = true) ∧
      State.balances (applyTrace (initialState 0)
        [Op.claimStarterPack 1, Op.runDungeon 1 65]) 1 2001 ≤ 1) ∧
    ({ balances := fun _ _ => 0
       hasClaimedStarterPack := fun _ => false
       hasCraftedLegendary := fun _ _ => true
       lastTimeRewardClaim := fun _ => 0
       playerList := []
       isPlayer := fun _ => false
       owner := 0 : State }.hasCraftedLegendary 1 2001 = true ∧
      exec (Op.craftLegendarySword 1 2001)
        { balances := fun _ _ => 0
          hasClaimedStarterPack := fun _ => false
          hasCraftedLegendary := fun _ _ => true
          lastTimeRewardClaim := fun _ => 0
          playerList := []
          isPlayer := fun _ => false
          owner := 0 } = .error .AlreadyCrafted) :=
  ⟨⟨by decide, craft_once_per_variant.2 0
      [Op.claimStarterPack 1, Op.runDungeon 1 65] 1 2001 (by decide)
      (by decide) (by decide)⟩,
    ⟨rfl, craft_once_per_variant.1 _ 1 2001 (by decide) (by decide) rfl⟩⟩

end DungeonToken
